import Mathlib

/-!
# Grafica: scene graph, GPU shapes and projection matrices

A shallow embedding of `source/grafica/scene_graph.{h,cpp}`, `gpu_shape.{h,cpp}`,
`transformations.cpp` and `basic_shapes.cpp`, and of the functions of the example programs
`ex_scene_graph_3dcars.cpp`, `ex_lighting.cpp`, `ex_joystick.cpp` and `ex_threads.cpp` that the
properties below are about.

* `Coord` (a C++ `float`) is replaced by an arbitrary field `K`, so that matrix entries are
  computed in exact arithmetic; `Matrix4f K` is `Eigen::Matrix4f`, `Vector4f K` is
  `Eigen::Vector4f`.
* A `SceneGraphNodePtr` is a shared pointer; the embedding is the tree obtained by unfolding the
  pointers, so a node reachable along two paths appears as two node occurrences.
* OpenGL is external.  Commands issued while drawing are recorded as a list of `GLCall`s; the
  object names handed out and released by the driver are kept in a `GLState`.
* Library functions (`std::tan`, `std::cos`, `std::sin`, the square root taken by Eigen's
  `normalize`, the constant `std::numbers::pi`) are parameters of the functions that call them;
  what GLFW reports is a value of `Glfw`.
* Unsigned 32 bit counters are natural numbers reduced modulo `2^32`; a loop whose termination
  depends on its input carries a bound on the iterations followed and returns an `Option`.
-/

namespace Grafica

/-! ## Data model -/

/-- The type `Eigen::Matrix4f`, with entries in `K`. -/
abbrev Matrix4f (K : Type) := Matrix (Fin 4) (Fin 4) K

/-- The type `Eigen::Vector4f`, with entries in `K`. -/
abbrev Vector4f (K : Type) := Fin 4 → K

/-- The struct `GPUShape` of `gpu_shape.h`: OpenGL object names and the index count. -/
structure GPUShape where
  vao : Nat
  vbo : Nat
  ebo : Nat
  texture : Nat
  size : Nat
deriving DecidableEq

/-- The class `SceneGraphNode` of `scene_graph.h`: a name, a local transform, an optional
GPU shape and the child nodes. -/
inductive SceneGraphNode (K : Type) where
  | mk (name : String) (transform : Matrix4f K) (gpuShapeMaybe : Option GPUShape)
      (childs : List (SceneGraphNode K))

namespace SceneGraphNode

variable {K : Type}

/-- Field `name`. -/
def name : SceneGraphNode K → String
  | mk n _ _ _ => n

/-- Field `transform`. -/
def transform : SceneGraphNode K → Matrix4f K
  | mk _ t _ _ => t

/-- Field `gpuShapeMaybe`. -/
def gpuShapeMaybe : SceneGraphNode K → Option GPUShape
  | mk _ _ s _ => s

/-- Field `childs`. -/
def childs : SceneGraphNode K → List (SceneGraphNode K)
  | mk _ _ _ cs => cs

end SceneGraphNode

/-- What a pipeline object exposes to `drawSceneGraphNode`: its shader program name. -/
structure Pipeline where
  shaderProgram : Nat
deriving DecidableEq

/-- The OpenGL commands issued by `drawSceneGraphNode`.  A uniform location is identified by the
program and the uniform name passed to `glGetUniformLocation`. -/
inductive GLCall (K : Type) where
  | uniformMatrix4fv (program : Nat) (uniformName : String) (value : Matrix4f K)
  | drawCall (program : Nat) (shape : GPUShape)

/-- The object names currently allocated by the OpenGL driver. -/
structure GLState where
  vertexArrays : List Nat
  buffers : List Nat
deriving DecidableEq

section SceneGraph

variable {K : Type}

/-! ## `scene_graph.cpp` -/

mutual
/-- The function `findNode` of `scene_graph.cpp`. -/
def findNode : SceneGraphNode K → String → Option (SceneGraphNode K)
  | .mk n t s cs, name =>
    if n = name then some (.mk n t s cs) else findNodeChilds cs name
/-- The loop of `findNode` over the children. -/
def findNodeChilds : List (SceneGraphNode K) → String → Option (SceneGraphNode K)
  | [], _ => none
  | c :: cs, name =>
    match findNode c name with
    | some r => some r
    | none => findNodeChilds cs name
end

mutual
/-- The function `findTransform` of `scene_graph.cpp`. -/
def findTransform [Field K] :
    SceneGraphNode K → String → Matrix4f K → Option (Matrix4f K)
  | .mk n t _ cs, name, parentTransform =>
    let newTransform := parentTransform * t
    if n = name then some newTransform else findTransformChilds cs name newTransform
/-- The loop of `findTransform` over the children. -/
def findTransformChilds [Field K] :
    List (SceneGraphNode K) → String → Matrix4f K → Option (Matrix4f K)
  | [], _, _ => none
  | c :: cs, name, newTransform =>
    match findTransform c name newTransform with
    | some r => some r
    | none => findTransformChilds cs name newTransform
end

/-- The function `findPosition` of `scene_graph.cpp`. -/
def findPosition [Field K] (nodePtr : SceneGraphNode K) (name : String)
    (parentTransform : Matrix4f K) : Option (Vector4f K) :=
  match findTransform nodePtr name parentTransform with
  | none => none
  | some transform => some (Matrix.mulVec transform ![0, 0, 0, 1])

mutual
/-- The function template `drawSceneGraphNode` of `scene_graph.h`, returning the OpenGL
commands it issues, in order. -/
def drawSceneGraphNode [Field K] (pipeline : Pipeline) (transformName : String) :
    SceneGraphNode K → Matrix4f K → List (GLCall K)
  | .mk _ t s cs, parentTransform =>
    let newTransform := parentTransform * t
    (match s with
      | some shape =>
        [GLCall.uniformMatrix4fv pipeline.shaderProgram transformName newTransform,
         GLCall.drawCall pipeline.shaderProgram shape]
      | none => [])
    ++ drawSceneGraphChilds pipeline transformName cs newTransform
/-- The loop of `drawSceneGraphNode` over the children. -/
def drawSceneGraphChilds [Field K] (pipeline : Pipeline) (transformName : String) :
    List (SceneGraphNode K) → Matrix4f K → List (GLCall K)
  | [], _ => []
  | c :: cs, newTransform =>
    drawSceneGraphNode pipeline transformName c newTransform
      ++ drawSceneGraphChilds pipeline transformName cs newTransform
end

/-! ## Traversal order (specification side) -/

mutual
/-- The nodes of a tree in depth-first pre-order: a node before its descendants, the children
in their stored order. -/
def preorder : SceneGraphNode K → List (SceneGraphNode K)
  | .mk n t s cs => .mk n t s cs :: preorderChilds cs
/-- The pre-order listing of a list of sibling subtrees. -/
def preorderChilds : List (SceneGraphNode K) → List (SceneGraphNode K)
  | [] => []
  | c :: cs => preorder c ++ preorderChilds cs
end

mutual
/-- The node occurrences of a tree in depth-first pre-order, each with its proper ancestors
listed from the root down. -/
def occurrences : SceneGraphNode K → List (List (SceneGraphNode K) × SceneGraphNode K)
  | .mk n t s cs =>
    ([], .mk n t s cs) ::
      (occurrencesChilds cs).map (fun o => (SceneGraphNode.mk n t s cs :: o.1, o.2))
/-- The occurrences of a list of sibling subtrees. -/
def occurrencesChilds :
    List (SceneGraphNode K) → List (List (SceneGraphNode K) × SceneGraphNode K)
  | [] => []
  | c :: cs => occurrences c ++ occurrencesChilds cs
end

/-- The product `T0 * T1 * ... * Tk` of the local transforms along the path from the root of
the tree to an occurrence (`T0` the root's transform, `Tk` the occurrence's own). -/
def pathTransform [Field K] (o : List (SceneGraphNode K) × SceneGraphNode K) : Matrix4f K :=
  ((o.1 ++ [o.2]).map SceneGraphNode.transform).prod

/-- The commands `drawSceneGraphNode` issues for a node once its composed transform is known:
the upload of the matrix followed by the draw call when the node carries a shape, nothing
otherwise. -/
def nodeCommands (pipeline : Pipeline) (transformName : String) (x : SceneGraphNode K)
    (m : Matrix4f K) : List (GLCall K) :=
  match x.gpuShapeMaybe with
  | some shape =>
    [GLCall.uniformMatrix4fv pipeline.shaderProgram transformName m,
     GLCall.drawCall pipeline.shaderProgram shape]
  | none => []

/-- The shapes drawn by a command sequence, in order. -/
def drawnShapes : List (GLCall K) → List GPUShape
  | [] => []
  | GLCall.drawCall _ shape :: rest => shape :: drawnShapes rest
  | GLCall.uniformMatrix4fv _ _ _ :: rest => drawnShapes rest

end SceneGraph

/-! ## `gpu_shape.cpp` and `SceneGraphNode::clear` -/

/-- A name the driver has not handed out yet: one more than every name in use. -/
def freshName (used : List Nat) : Nat :=
  used.foldr max 0 + 1

/-- The call `glGenVertexArrays(1, &name)`: the generated name and the new driver state. -/
def glGenVertexArrays (gl : GLState) : Nat × GLState :=
  (freshName gl.vertexArrays,
    { gl with vertexArrays := freshName gl.vertexArrays :: gl.vertexArrays })

/-- The call `glGenBuffers(1, &name)`: the generated name and the new driver state. -/
def glGenBuffers (gl : GLState) : Nat × GLState :=
  (freshName gl.buffers, { gl with buffers := freshName gl.buffers :: gl.buffers })

/-- The call `glDeleteVertexArrays(1, &name)`. -/
def glDeleteVertexArrays (gl : GLState) (n : Nat) : GLState :=
  { gl with vertexArrays := gl.vertexArrays.filter (fun m => m ≠ n) }

/-- The call `glDeleteBuffers(1, &name)`. -/
def glDeleteBuffers (gl : GLState) (n : Nat) : GLState :=
  { gl with buffers := gl.buffers.filter (fun m => m ≠ n) }

/-- The method `void GPUShape::initBuffers()`: the returned value (of type `void`), the
updated object and the new driver state. -/
def GPUShape.initBuffers (self : GPUShape) (gl : GLState) : Unit × GPUShape × GLState :=
  let r1 := glGenVertexArrays gl
  let r2 := glGenBuffers r1.2
  let r3 := glGenBuffers r2.2
  ((), { self with vao := r1.1, vbo := r2.1, ebo := r3.1 }, r3.2)

/-- The method `GPUShape::clear()`: the driver state after the three deletions. -/
def GPUShape.clear (self : GPUShape) (gl : GLState) : GLState :=
  glDeleteBuffers (glDeleteBuffers (glDeleteVertexArrays gl self.vao) self.vbo) self.ebo

section Clear

variable {K : Type}

mutual
/-- The method `SceneGraphNode::clear()`: the driver state after the call. -/
def SceneGraphNode.clear : SceneGraphNode K → GLState → GLState
  | .mk _ _ _ cs, gl => SceneGraphNode.clearChilds cs gl
/-- The loop of `SceneGraphNode::clear()` over the children. -/
def SceneGraphNode.clearChilds : List (SceneGraphNode K) → GLState → GLState
  | [], gl => gl
  | c :: cs, gl => SceneGraphNode.clearChilds cs (SceneGraphNode.clear c gl)
end

end Clear

/-! ## `transformations.cpp` -/

namespace Transformations

variable {K : Type} [Field K]

/-- The function `identity`. -/
def identity : Matrix4f K := 1

/-- The function `scale`. -/
def scale (sx sy sz : K) : Matrix4f K :=
  !![sx, 0, 0, 0;
     0, sy, 0, 0;
     0, 0, sz, 0;
     0, 0, 0, 1]

/-- The function `translate`. -/
def translate (tx ty tz : K) : Matrix4f K :=
  !![1, 0, 0, tx;
     0, 1, 0, ty;
     0, 0, 1, tz;
     0, 0, 0, 1]

/-- The function `frustum`. -/
def frustum (left right bottom top near far : K) : Matrix4f K :=
  let r_l := right - left
  let t_b := top - bottom
  let f_n := far - near
  !![2 * near / r_l, 0, (right + left) / r_l, 0;
     0, 2 * near / t_b, (top + bottom) / t_b, 0;
     0, 0, -(far + near) / f_n, -2 * near * far / f_n;
     0, 0, -1, 0]

/-- The function `ortho`. -/
def ortho (left right bottom top near far : K) : Matrix4f K :=
  let r_l := right - left
  let t_b := top - bottom
  let f_n := far - near
  !![2 / r_l, 0, 0, -(right + left) / r_l;
     0, 2 / t_b, 0, -(top + bottom) / t_b;
     0, 0, -2 / f_n, -(far + near) / f_n;
     0, 0, 0, 1]

/-- The function `perspective`.  The library function `std::tan` and the constant
`std::numbers::pi` are passed as `tan` and `pi`. -/
def perspective (tan : K → K) (pi : K) (fovy aspect near far : K) : Matrix4f K :=
  let halfHeight := tan (pi * fovy / 360) * near
  let halfWidth := halfHeight * aspect
  frustum (-halfWidth) halfWidth (-halfHeight) halfHeight near far

/-- Division of a homogeneous vector by its `w` component, defined when `w` is not zero. -/
def perspectiveDivide [DecidableEq K] (v : Vector4f K) : Option (Fin 3 → K) :=
  if v 3 = 0 then none else some ![v 0 / v 3, v 1 / v 3, v 2 / v 3]

end Transformations

/-! ## Concrete scene graphs -/

/-- A GPU shape with the given object names. -/
def sampleShape (vao vbo ebo : Nat) : GPUShape :=
  { vao := vao, vbo := vbo, ebo := ebo, texture := 0, size := 36 }

/-- The wheel node of the car of `ex_scene_graph_3dcars.cpp`. -/
def sampleWheel : SceneGraphNode ℚ :=
  .mk "wheel" (Transformations.scale (1/5) (4/5) (1/5)) (some (sampleShape 2 3 4)) []

/-- The wheel rotation node of the car, with the wheel below it. -/
def sampleWheelRotation : SceneGraphNode ℚ :=
  .mk "wheelRotation" Transformations.identity none [sampleWheel]

/-- The chasis node of the car. -/
def sampleChasis : SceneGraphNode ℚ :=
  .mk "chasis" (Transformations.scale 1 (7/10) (1/2)) (some (sampleShape 1 1 2)) []

/-- The front wheel node of the car. -/
def sampleFrontWheel : SceneGraphNode ℚ :=
  .mk "frontWheel" (Transformations.translate (3/10) 0 (-3/10)) none [sampleWheelRotation]

/-- The back wheel node of the car; it shares the wheel rotation node with the front wheel. -/
def sampleBackWheel : SceneGraphNode ℚ :=
  .mk "backWheel" (Transformations.translate (-3/10) 0 (-3/10)) none [sampleWheelRotation]

/-- A car with one wheel: every node name occurs once. -/
def sampleUnicycle : SceneGraphNode ℚ :=
  .mk "car" Transformations.identity none [sampleChasis, sampleFrontWheel]

/-- The car of `ex_scene_graph_3dcars.cpp`: the wheel rotation node is reached twice. -/
def sampleCar : SceneGraphNode ℚ :=
  .mk "car" Transformations.identity none [sampleChasis, sampleFrontWheel, sampleBackWheel]

/-- A node carrying a shape whose object names are allocated in `sampleGL`. -/
def sampleShapeNode : SceneGraphNode ℚ :=
  .mk "chasis" Transformations.identity (some (sampleShape 1 1 2)) []

/-- A driver state in which the objects of `sampleShape 1 1 2` are allocated. -/
def sampleGL : GLState :=
  { vertexArrays := [1], buffers := [1, 2] }

/-! ## `shape.h` and `basic_shapes.cpp` -/

/-- The struct `Shape` of `shape.h`: the flat vertex data, the indices, the texture name and
the number of coordinates stored for each vertex. -/
structure Shape (K : Type) where
  vertices : List K
  indices : List Nat
  texture : String
  stride : Nat

section Shapes

variable {K : Type} [Field K]

/-- The function `createRainbowCube`. -/
def createRainbowCube : Shape K :=
  { stride := 6
    texture := ""
    vertices := [
      -0.5, -0.5,  0.5,  1.0, 0.0, 0.0,
       0.5, -0.5,  0.5,  0.0, 1.0, 0.0,
       0.5,  0.5,  0.5,  0.0, 0.0, 1.0,
      -0.5,  0.5,  0.5,  1.0, 1.0, 1.0,
      -0.5, -0.5, -0.5,  1.0, 1.0, 0.0,
       0.5, -0.5, -0.5,  0.0, 1.0, 1.0,
       0.5,  0.5, -0.5,  1.0, 0.0, 1.0,
      -0.5,  0.5, -0.5,  1.0, 1.0, 1.0]
    indices := [
      0, 1, 2, 2, 3, 0,
      4, 5, 6, 6, 7, 4,
      4, 5, 1, 1, 0, 4,
      6, 7, 3, 3, 2, 6,
      5, 6, 2, 2, 1, 5,
      7, 4, 0, 0, 3, 7] }

/-- The function `createColorCube`. -/
def createColorCube (r g b : K) : Shape K :=
  { stride := 6
    texture := ""
    vertices := [
      -0.5, -0.5,  0.5, r, g, b,
       0.5, -0.5,  0.5, r, g, b,
       0.5,  0.5,  0.5, r, g, b,
      -0.5,  0.5,  0.5, r, g, b,
      -0.5, -0.5, -0.5, r, g, b,
       0.5, -0.5, -0.5, r, g, b,
       0.5,  0.5, -0.5, r, g, b,
      -0.5,  0.5, -0.5, r, g, b]
    indices := [
      0, 1, 2, 2, 3, 0,
      4, 5, 6, 6, 7, 4,
      4, 5, 1, 1, 0, 4,
      6, 7, 3, 3, 2, 6,
      5, 6, 2, 2, 1, 5,
      7, 4, 0, 0, 3, 7] }

/-- The function `createColorNormalsCube`. -/
def createColorNormalsCube (r g b : K) : Shape K :=
  { stride := 9
    texture := ""
    vertices := [
      -0.5, -0.5,  0.5, r, g, b, 0.0, 0.0, 1.0,
       0.5, -0.5,  0.5, r, g, b, 0.0, 0.0, 1.0,
       0.5,  0.5,  0.5, r, g, b, 0.0, 0.0, 1.0,
      -0.5,  0.5,  0.5, r, g, b, 0.0, 0.0, 1.0,
      -0.5, -0.5, -0.5, r, g, b, 0.0, 0.0, -1.0,
       0.5, -0.5, -0.5, r, g, b, 0.0, 0.0, -1.0,
       0.5,  0.5, -0.5, r, g, b, 0.0, 0.0, -1.0,
      -0.5,  0.5, -0.5, r, g, b, 0.0, 0.0, -1.0,
      0.5, -0.5, -0.5, r, g, b, 1.0, 0.0, 0.0,
      0.5,  0.5, -0.5, r, g, b, 1.0, 0.0, 0.0,
      0.5,  0.5,  0.5, r, g, b, 1.0, 0.0, 0.0,
      0.5, -0.5,  0.5, r, g, b, 1.0, 0.0, 0.0,
      -0.5, -0.5, -0.5, r, g, b, -1.0, 0.0, 0.0,
      -0.5,  0.5, -0.5, r, g, b, -1.0, 0.0, 0.0,
      -0.5,  0.5,  0.5, r, g, b, -1.0, 0.0, 0.0,
      -0.5, -0.5,  0.5, r, g, b, -1.0, 0.0, 0.0,
      -0.5, 0.5, -0.5, r, g, b, 0.0, 1.0, 0.0,
       0.5, 0.5, -0.5, r, g, b, 0.0, 1.0, 0.0,
       0.5, 0.5,  0.5, r, g, b, 0.0, 1.0, 0.0,
      -0.5, 0.5,  0.5, r, g, b, 0.0, 1.0, 0.0,
      -0.5, -0.5, -0.5, r, g, b, 0.0, -1.0, 0.0,
       0.5, -0.5, -0.5, r, g, b, 0.0, -1.0, 0.0,
       0.5, -0.5,  0.5, r, g, b, 0.0, -1.0, 0.0,
      -0.5, -0.5,  0.5, r, g, b, 0.0, -1.0, 0.0]
    indices := [
       0,  1,  2,  2,  3,  0,
       7,  6,  5,  5,  4,  7,
       8,  9, 10, 10, 11,  8,
      15, 14, 13, 13, 12, 15,
      19, 18, 17, 17, 16, 19,
      20, 21, 22, 22, 23, 20] }

/-- The loop of `createColorCircle`, with the `unsigned int` counter `i` and the loop bound
`steps + 1` already reduced modulo `2^32`.  The first argument bounds the number of iterations
the model follows; `none` means the bound was reached. -/
def createColorCircleLoop (cos sin : K → K) (dtheta r g b : K) (bound : Nat) :
    Nat → Nat → Shape K → Option (Shape K)
  | 0, _, _ => none
  | fuel + 1, i, shape =>
    if i ≤ bound then
      let theta := (i : K) * dtheta
      let x := 0.5 * cos theta
      let y := 0.5 * sin theta
      createColorCircleLoop cos sin dtheta r g b bound fuel ((i + 1) % 2 ^ 32)
        { shape with
          vertices := shape.vertices ++ [x, y, 0.0, r, g, b]
          indices := shape.indices ++ [0, (i + (2 ^ 32 - 1)) % 2 ^ 32, i] }
    else some shape

/-- The function `createColorCircle`, for an `unsigned int` value `steps`.  The library functions
`std::cos` and `std::sin` are passed as `cos` and `sin`; the two calls of `reserve` set
capacities only and leave the contents alone.  As the counter takes at most `2^32` values,
`none` is returned exactly when the loop of the source does not terminate. -/
def createColorCircle (cos sin : K → K) (steps : Nat) (r g b : K) : Option (Shape K) :=
  let dtheta : K := 2 * 3.1415 / (steps : K)
  createColorCircleLoop cos sin dtheta r g b ((steps + 1) % 2 ^ 32) (2 ^ 32) 1
    { stride := 6
      texture := ""
      vertices := [0.0, 0.0, 0.0, r, g, b] ++ [0.5, 0.0, 0.0, r, g, b]
      indices := [] }

/-- The position of vertex `i` of a shape: the first three coordinates of its record. -/
def Shape.position (s : Shape K) (i : Nat) : Fin 3 → K :=
  ![s.vertices.getD (s.stride * i) 0, s.vertices.getD (s.stride * i + 1) 0,
    s.vertices.getD (s.stride * i + 2) 0]

/-- The normal of vertex `i` of a shape with nine coordinates for each vertex: the last three
coordinates of its record. -/
def Shape.normal (s : Shape K) (i : Nat) : Fin 3 → K :=
  ![s.vertices.getD (s.stride * i + 6) 0, s.vertices.getD (s.stride * i + 7) 0,
    s.vertices.getD (s.stride * i + 8) 0]

end Shapes

/-- The triangles of an index list: the consecutive groups of three indices. -/
def triangles : List Nat → List (Nat × Nat × Nat)
  | a :: b :: c :: rest => (a, b, c) :: triangles rest
  | _ => []

/-- The consecutive groups of six indices of an index list (one row of the cube generators). -/
def rows : List Nat → List (List Nat)
  | a :: b :: c :: d :: e :: f :: rest => [a, b, c, d, e, f] :: rows rest
  | _ => []

/-- The six faces of the cube in the order of the rows of `createColorCube` and
`createRainbowCube`: a coordinate axis and whether the face lies at `+0.5` (otherwise at
`-0.5`). -/
def cubeRowFaces : List (Fin 3 × Bool) :=
  [(2, true), (2, false), (1, false), (1, true), (0, true), (0, false)]

/-- The outward axis directions of the faces `Z+`, `Z-`, `X+`, `X-`, `Y+`, `Y-`, in the order
of the labels of `createColorNormalsCube`. -/
def labelledFaceNormals {K : Type} [Field K] : List (Fin 3 → K) :=
  [![0, 0, 1], ![0, 0, -1], ![1, 0, 0], ![-1, 0, 0], ![0, 1, 0], ![0, -1, 0]]

/-! ## `toGPUShape` and `createCar` of `ex_scene_graph_3dcars.cpp` -/

section Car

variable {K : Type} [Field K]

/-- The method `GPUShape::fillBuffers`: the object after the call.  The data uploaded with
`glBufferData` is not part of the driver state kept here. -/
def GPUShape.fillBuffers (self : GPUShape) (shape : Shape K) : GPUShape :=
  { self with size := shape.indices.length }

/-- The function template `toGPUShape`.  The fields of the local `GPUShape` start out
indeterminate and are represented by `0`; `pipeline.setupVAO` binds and describes the buffers
and changes neither the shape nor the allocated names. -/
def toGPUShape (gl : GLState) (shape : Shape K) : GPUShape × GLState :=
  let gpuShape : GPUShape := { vao := 0, vbo := 0, ebo := 0, texture := 0, size := 0 }
  let r := gpuShape.initBuffers gl
  (r.2.1.fillBuffers shape, r.2.2)

/-- The function template `createCar` of `ex_scene_graph_3dcars.cpp`: the root of the scene
graph and the driver state after the two shapes were created. -/
def createCar (gl : GLState) (r g b : K) : SceneGraphNode K × GLState :=
  let gpuChasis := toGPUShape gl (createColorCube r g b)
  let gpuWeel := toGPUShape gpuChasis.2 (createColorCube (0 : K) 0 0)
  let wheelPtr : SceneGraphNode K :=
    .mk "wheel" (Transformations.scale 0.2 0.8 0.2) (some gpuWeel.1) []
  let wheelRotationPtr : SceneGraphNode K :=
    .mk "wheelRotation" Transformations.identity none [wheelPtr]
  let frontWheelPtr : SceneGraphNode K :=
    .mk "frontWheel" (Transformations.translate 0.3 0 (-0.3)) none [wheelRotationPtr]
  let backWheelPtr : SceneGraphNode K :=
    .mk "backWheel" (Transformations.translate (-0.3) 0 (-0.3)) none [wheelRotationPtr]
  let chasisPtr : SceneGraphNode K :=
    .mk "chasis" (Transformations.scale 1 0.7 0.5) (some gpuChasis.1) []
  let carPtr : SceneGraphNode K :=
    .mk "car" Transformations.identity none [chasisPtr, frontWheelPtr, backWheelPtr]
  (carPtr, gpuWeel.2)

end Car

/-! ## The shape selection of `ex_lighting.cpp` -/

/-- The GLFW constant `GLFW_PRESS`. -/
def GLFW_PRESS : Int := 1

/-- The GLFW constant `GLFW_KEY_ESCAPE`. -/
def GLFW_KEY_ESCAPE : Int := 256

/-- The GLFW constant `GLFW_KEY_SPACE`. -/
def GLFW_KEY_SPACE : Int := 32

/-- The GLFW constant `GLFW_KEY_LEFT_CONTROL`. -/
def GLFW_KEY_LEFT_CONTROL : Int := 341

/-- The GLFW constant `GLFW_KEY_UP`. -/
def GLFW_KEY_UP : Int := 265

/-- The GLFW constant `GLFW_KEY_DOWN`. -/
def GLFW_KEY_DOWN : Int := 264

/-- The struct `Controller` of `ex_lighting.cpp`; `shapeIndex` is an `int`. -/
structure Controller where
  fillPolygon : Bool
  showAxis : Bool
  shapeIndex : Int
deriving DecidableEq

/-- The state `key_callback` acts on: the global `controller` and the close flag of the
window. -/
structure AppState where
  controller : Controller
  windowShouldClose : Bool
deriving DecidableEq

/-- The function `key_callback` of `ex_lighting.cpp`, for one key event. -/
def key_callback (st : AppState) (key action : Int) : AppState :=
  if action ≠ GLFW_PRESS then st
  else if key = GLFW_KEY_ESCAPE then
    { st with windowShouldClose := true }
  else if key = GLFW_KEY_SPACE then
    { st with controller := { st.controller with fillPolygon := !st.controller.fillPolygon } }
  else if key = GLFW_KEY_LEFT_CONTROL then
    { st with controller := { st.controller with showAxis := !st.controller.showAxis } }
  else if key = GLFW_KEY_UP then
    { st with controller := { st.controller with shapeIndex := st.controller.shapeIndex - 1 } }
  else if key = GLFW_KEY_DOWN then
    { st with controller := { st.controller with shapeIndex := st.controller.shapeIndex + 1 } }
  else st

/-- The call `glfwPollEvents()`: `key_callback` runs once for each pending key event
`(key, action)`, in order. -/
def pollKeyEvents (st : AppState) (events : List (Int × Int)) : AppState :=
  events.foldl (fun acc e => key_callback acc e.1 e.2) st

/-- Conversion of an `int` to `std::size_t` (64 bits). -/
def intToSize (i : Int) : Nat :=
  (i % 2 ^ 64).toNat

/-- Conversion of a `std::size_t` to `int` (32 bits, two's complement). -/
def sizeToInt (n : Nat) : Int :=
  ((n : Int) + 2 ^ 31) % 2 ^ 32 - 2 ^ 31

/-- The step "Cyclic rotation over shapes" of the application loop of `ex_lighting.cpp`, for
`size = gpuShapes.size()`.  In `shapeIndex == gpuShapes.size()` the index is converted to
`std::size_t`. -/
def cyclicRotation (size : Nat) (c : Controller) : Controller :=
  if intToSize c.shapeIndex = size then { c with shapeIndex := 0 }
  else if c.shapeIndex < 0 then
    { c with shapeIndex := sizeToInt ((size + (2 ^ 64 - 1)) % 2 ^ 64) }
  else c

/-- The call `gpuShapes.at(index)` with an `int` index: `none` when `std::out_of_range` is
thrown. -/
def shapeAt {α : Type} (gpuShapes : List α) (index : Int) : Option α :=
  gpuShapes[intToSize index]?

/-- One pass of the application loop up to the shape selection: the pending key events are
handled, the index is wrapped, and the shape to display is looked up. -/
def selectShape {α : Type} (gpuShapes : List α) (st : AppState) (events : List (Int × Int)) :
    AppState × Option α :=
  let st1 := pollKeyEvents st events
  let c := cyclicRotation gpuShapes.length st1.controller
  ({ st1 with controller := c }, shapeAt gpuShapes c.shapeIndex)

/-! ## `pollJoysticks` of `ex_joystick.cpp` -/

/-- The GLFW constant `GLFW_JOYSTICK_1`. -/
def GLFW_JOYSTICK_1 : Nat := 0

/-- The GLFW constant `GLFW_JOYSTICK_LAST` (it is `GLFW_JOYSTICK_16`). -/
def GLFW_JOYSTICK_LAST : Nat := 15

/-- The struct `Joystick` of `ex_joystick.cpp`. -/
structure Joystick (K : Type) where
  buttons : List Bool
  axes : List K

/-- What GLFW reports about the joysticks: `glfwJoystickPresent`, and the arrays returned by
`glfwGetJoystickButtons` (button states) and `glfwGetJoystickAxes`. -/
structure Glfw (K : Type) where
  joystickPresent : Nat → Bool
  joystickButtons : Nat → List Int
  joystickAxes : Nat → List K

/-- The type `JoystickContainer`: a map from joystick ids to joysticks. -/
abbrev JoystickContainer (K : Type) := Nat → Option (Joystick K)

section Joysticks

variable {K : Type} [Field K]

/-- The container with the entry of `id` set to `entry`. -/
def JoystickContainer.set (joysticks : JoystickContainer K) (id : Nat)
    (entry : Option (Joystick K)) : JoystickContainer K :=
  fun j => if j = id then entry else joysticks j

/-- The body of the loop of `pollJoysticks` for one joystick id; `none` when an `assert`
fails. -/
def pollJoystick (glfw : Glfw K) (joysticks : JoystickContainer K) (joystickId : Nat) :
    Option (JoystickContainer K) :=
  if glfw.joystickPresent joystickId = false then
    if (joysticks joystickId).isSome then some (joysticks.set joystickId none)
    else some joysticks
  else
    let buttons := glfw.joystickButtons joystickId
    let buttonsCount := buttons.length
    let axes := glfw.joystickAxes joystickId
    let axesCount := axes.length
    let joysticks1 :=
      if (joysticks joystickId).isNone then
        joysticks.set joystickId
          (some { buttons := List.replicate buttonsCount false,
                  axes := List.replicate axesCount 0 })
      else joysticks
    match joysticks1 joystickId with
    | none => none
    | some joystick =>
      if joystick.buttons.length ≠ buttonsCount then none
      else
        let newButtons := (List.range buttonsCount).foldl
          (fun bs buttonId => bs.set buttonId (decide (buttons.getD buttonId 0 = GLFW_PRESS)))
          joystick.buttons
        if joystick.axes.length ≠ axesCount then none
        else
          let newAxes := (List.range axesCount).foldl
            (fun vals axesId => vals.set axesId (axes.getD axesId 0)) joystick.axes
          some (joysticks1.set joystickId (some { buttons := newButtons, axes := newAxes }))

/-- The function `pollJoysticks` of `ex_joystick.cpp`: the loop runs over the ids `joystickId`
with `GLFW_JOYSTICK_1 <= joystickId < GLFW_JOYSTICK_LAST`. -/
def pollJoysticks (glfw : Glfw K) (joysticks : JoystickContainer K) :
    Option (JoystickContainer K) :=
  (List.range' GLFW_JOYSTICK_1 (GLFW_JOYSTICK_LAST - GLFW_JOYSTICK_1)).foldlM
    (pollJoystick glfw) joysticks

end Joysticks

/-! ## `isPrime` of `ex_threads.cpp` -/

/-- The loop of `isPrime`, for the 32 bit `NumberType`.  The first argument bounds the number
of iterations the model follows; `none` means the bound was reached. -/
def isPrimeLoop (number : Nat) : Nat → Nat → Option Bool
  | 0, _ => none
  | fuel + 1, i =>
    if (i <<< 2) % 2 ^ 32 ≤ number then
      if number % i = 0 ∨ number % ((i + 2) % 2 ^ 32) = 0 then some false
      else isPrimeLoop number fuel ((i + 6) % 2 ^ 32)
    else some true

/-- The function `isPrime` of `ex_threads.cpp`, for a 32 bit `unsigned int`.  As `i` takes at
most `2^32` values, `none` is returned only when the loop of the source does not terminate. -/
def isPrime (number : Nat) : Option Bool :=
  if number ≤ 3 then some (decide (number > 1))
  else if number % 2 = 0 ∨ number % 3 = 0 then some false
  else isPrimeLoop number (2 ^ 32) 5

/-! ## Concrete inputs -/

/-- The ten shapes of `gpuShapes` in `ex_lighting.cpp`, by their position. -/
def sampleGpuShapes : List Nat :=
  [0, 1, 2, 3, 4, 5, 6, 7, 8, 9]

/-- The application state with the given shape index. -/
def sampleAppState (shapeIndex : Int) : AppState :=
  { controller := { fillPolygon := true, showAxis := true, shapeIndex := shapeIndex },
    windowShouldClose := false }

/-- A GLFW in which only the joystick `GLFW_JOYSTICK_LAST` is present, with two buttons
(the first pressed) and one axis. -/
def sampleGlfw : Glfw ℚ :=
  { joystickPresent := fun j => decide (j = GLFW_JOYSTICK_LAST),
    joystickButtons := fun j => if j = GLFW_JOYSTICK_LAST then [1, 0] else [],
    joystickAxes := fun j => if j = GLFW_JOYSTICK_LAST then [1 / 2] else [] }

/-- The empty joystick container. -/
def noJoysticks : JoystickContainer ℚ :=
  fun _ => none

/-! ## The remaining functions of `transformations.cpp` -/

/-- The type `Eigen::Vector3f`, with entries in `K`. -/
abbrev Vector3f (K : Type) := Fin 3 → K

namespace Transformations

variable {K : Type} [Field K]

/-- The function `uniformScale`. -/
def uniformScale (s : K) : Matrix4f K :=
  !![s, 0, 0, 0;
     0, s, 0, 0;
     0, 0, s, 0;
     0, 0, 0, 1]

/-- The function `rotationX`; `std::sin` and `std::cos` are passed as `sin` and `cos`. -/
def rotationX (sin cos : K → K) (theta_radians : K) : Matrix4f K :=
  let sin_theta := sin theta_radians
  let cos_theta := cos theta_radians
  !![1, 0, 0, 0;
     0, cos_theta, -sin_theta, 0;
     0, sin_theta, cos_theta, 0;
     0, 0, 0, 1]

/-- The function `rotationY`; `std::sin` and `std::cos` are passed as `sin` and `cos`. -/
def rotationY (sin cos : K → K) (theta_radians : K) : Matrix4f K :=
  let sin_theta := sin theta_radians
  let cos_theta := cos theta_radians
  !![cos_theta, 0, sin_theta, 0;
     0, 1, 0, 0;
     -sin_theta, 0, cos_theta, 0;
     0, 0, 0, 1]

/-- The function `rotationZ`; `std::sin` and `std::cos` are passed as `sin` and `cos`. -/
def rotationZ (sin cos : K → K) (theta_radians : K) : Matrix4f K :=
  let sin_theta := sin theta_radians
  let cos_theta := cos theta_radians
  !![cos_theta, -sin_theta, 0, 0;
     sin_theta, cos_theta, 0, 0;
     0, 0, 1, 0;
     0, 0, 0, 1]

/-- The method `squaredNorm` of Eigen, on three-dimensional vectors. -/
def squaredNorm (v : Vector3f K) : K :=
  v 0 * v 0 + v 1 * v 1 + v 2 * v 2

/-- The method `normalize` of Eigen: the vector divided by its norm, the square root being
passed as `sqrt`.  Eigen leaves a vector of norm zero alone; so does the division by zero of
the field. -/
def normalize (sqrt : K → K) (v : Vector3f K) : Vector3f K :=
  fun i => v i / sqrt (squaredNorm v)

/-- The method `cross` of Eigen. -/
def cross (a b : Vector3f K) : Vector3f K :=
  ![a 1 * b 2 - a 2 * b 1, a 2 * b 0 - a 0 * b 2, a 0 * b 1 - a 1 * b 0]

/-- The method `dot` of Eigen, on three-dimensional vectors. -/
def dot (a b : Vector3f K) : K :=
  a 0 * b 0 + a 1 * b 1 + a 2 * b 2

/-- The function `rotationA`; `std::sin`, `std::cos` and the square root taken by `normalize`
are passed as `sin`, `cos` and `sqrt`. -/
def rotationA (sin cos sqrt : K → K) (theta_radians : K) (axis : Vector3f K) : Matrix4f K :=
  let s := sin theta_radians
  let c := cos theta_radians
  let axis := normalize sqrt axis
  let x := axis 0
  let y := axis 1
  let z := axis 2
  !![c + (1 - c) * x * x, (1 - c) * x * y - s * z, (1 - c) * x * z + s * y, 0;
     (1 - c) * x * y + s * z, c + (1 - c) * y * y, (1 - c) * y * z - s * x, 0;
     (1 - c) * x * z - s * y, (1 - c) * y * z + s * x, c + (1 - c) * z * z, 0;
     0, 0, 0, 1]

/-- The function `shearing`. -/
def shearing (xy yx xz zx yz zy : K) : Matrix4f K :=
  !![1, xy, xz, 0;
     yx, 1, yz, 0;
     zx, zy, 1, 0;
     0, 0, 0, 1]

/-- The function `lookAt`; the parameter `at` of the source is called `target`, and the square
root taken by `normalize` is passed as `sqrt`. -/
def lookAt (sqrt : K → K) (eye target up : Vector3f K) : Matrix4f K :=
  let forward := normalize sqrt (target - eye)
  let side := normalize sqrt (cross forward up)
  let newUp := normalize sqrt (cross side forward)
  !![side 0, side 1, side 2, -dot side eye;
     newUp 0, newUp 1, newUp 2, -dot newUp eye;
     -forward 0, -forward 1, -forward 2, dot forward eye;
     0, 0, 0, 1]

end Transformations

/-! ## The remaining generators of `basic_shapes.cpp` -/

section MoreShapes

variable {K : Type} [Field K]

/-- The function `createRainbowTriangle`. -/
def createRainbowTriangle : Shape K :=
  { stride := 6
    texture := ""
    vertices := [
      -0.5, -0.5, 0.0,  1.0, 0.0, 0.0,
       0.5, -0.5, 0.0,  0.0, 1.0, 0.0,
       0.0,  0.5, 0.0,  0.0, 0.0, 1.0]
    indices := [0, 1, 2] }

/-- The function `createRainbowQuad`. -/
def createRainbowQuad : Shape K :=
  { stride := 6
    texture := ""
    vertices := [
      -0.5, -0.5, 0.0,  1.0, 0.0, 0.0,
       0.5, -0.5, 0.0,  0.0, 1.0, 0.0,
       0.5,  0.5, 0.0,  0.0, 0.0, 1.0,
      -0.5,  0.5, 0.0,  1.0, 1.0, 1.0]
    indices := [
      0, 1, 2,
      2, 3, 0] }

/-- The function `createColorQuad`. -/
def createColorQuad (r g b : K) : Shape K :=
  { stride := 6
    texture := ""
    vertices := [
      -0.5, -0.5, 0.0,  r, g, b,
       0.5, -0.5, 0.0,  r, g, b,
       0.5,  0.5, 0.0,  r, g, b,
      -0.5,  0.5, 0.0,  r, g, b]
    indices := [
      0, 1, 2,
      2, 3, 0] }

/-- The function `createTextureQuad`. -/
def createTextureQuad (nx ny : K) : Shape K :=
  { stride := 5
    texture := ""
    vertices := [
      -0.5, -0.5, 0.0, 0.0, ny,
       0.5, -0.5, 0.0, nx, ny,
       0.5,  0.5, 0.0, nx, 0.0,
      -0.5,  0.5, 0.0, 0.0, 0.0]
    indices := [
      0, 1, 2,
      2, 3, 0] }

/-- The function `createAxis`. -/
def createAxis (length : K) : Shape K :=
  { stride := 6
    texture := ""
    vertices := [
      -length, 0.0, 0.0, 0.0, 0.0, 0.0,
       length, 0.0, 0.0, 1.0, 0.0, 0.0,
       0.0, -length, 0.0, 0.0, 0.0, 0.0,
       0.0,  length, 0.0, 0.0, 1.0, 0.0,
       0.0, 0.0, -length, 0.0, 0.0, 0.0,
       0.0, 0.0,  length, 0.0, 0.0, 1.0]
    indices := [
      0, 1,
      2, 3,
      4, 5] }

/-- The function `createRainbowNormalsCube`. -/
def createRainbowNormalsCube : Shape K :=
  let sq3 : K := 0.57735027
  { stride := 9
    texture := ""
    vertices := [
      -0.5, -0.5,  0.5, 1.0, 0.0, 0.0, -sq3, -sq3, sq3,
       0.5, -0.5,  0.5, 0.0, 1.0, 0.0,  sq3, -sq3,  sq3,
       0.5,  0.5,  0.5, 0.0, 0.0, 1.0,  sq3,  sq3,  sq3,
      -0.5,  0.5,  0.5, 1.0, 1.0, 1.0, -sq3,  sq3,  sq3,
      -0.5, -0.5, -0.5, 1.0, 1.0, 0.0, -sq3, -sq3, -sq3,
       0.5, -0.5, -0.5, 0.0, 1.0, 1.0,  sq3, -sq3, -sq3,
       0.5,  0.5, -0.5, 1.0, 0.0, 1.0,  sq3,  sq3, -sq3,
      -0.5,  0.5, -0.5, 1.0, 1.0, 1.0, -sq3,  sq3, -sq3]
    indices := [
      0, 1, 2, 2, 3, 0,
      4, 5, 6, 6, 7, 4,
      4, 5, 1, 1, 0, 4,
      6, 7, 3, 3, 2, 6,
      5, 6, 2, 2, 1, 5,
      7, 4, 0, 0, 3, 7] }

/-- The first loop of `createGridXY` (over `i`), with the `unsigned int` arithmetic reduced
modulo `2^32`.  The first argument bounds the number of iterations the model follows; `none`
means the bound was reached. -/
def createGridXYLoopX (Nx : Nat) (xmin xmax z r g b : K) :
    Nat → Nat → Shape K → Option (Shape K)
  | 0, _, _ => none
  | fuel + 1, i, shape =>
    if i ≤ Nx then
      let y : K := (i : K)
      createGridXYLoopX Nx xmin xmax z r g b fuel ((i + 1) % 2 ^ 32)
        { shape with
          vertices := shape.vertices ++ [xmin, y, z, r, g, b, xmax, y, z, r, g, b]
          indices := shape.indices ++ [(2 * i) % 2 ^ 32, ((2 * i) % 2 ^ 32 + 1) % 2 ^ 32] }
    else some shape

/-- The second loop of `createGridXY` (over `j`); `Sx` is a `std::size_t` (64 bits) and the
indices pushed are converted to the 32 bit `Index`. -/
def createGridXYLoopY (Ny Sx : Nat) (ymin ymax z r g b : K) :
    Nat → Nat → Shape K → Option (Shape K)
  | 0, _, _ => none
  | fuel + 1, j, shape =>
    if j ≤ Ny then
      let x : K := (j : K)
      createGridXYLoopY Ny Sx ymin ymax z r g b fuel ((j + 1) % 2 ^ 32)
        { shape with
          vertices := shape.vertices ++ [x, ymin, z, r, g, b, x, ymax, z, r, g, b]
          indices := shape.indices ++
            [((Sx + (2 * j) % 2 ^ 32) % 2 ^ 64) % 2 ^ 32,
             (((Sx + (2 * j) % 2 ^ 32) % 2 ^ 64 + 1) % 2 ^ 64) % 2 ^ 32] }
    else some shape

/-- The function `createGridXY`, for `unsigned int` values `Nx` and `Ny`; the two calls of
`reserve` set capacities only.  As each counter takes at most `2^32` values, `none` is returned
exactly when a loop of the source does not terminate. -/
def createGridXY (Nx Ny : Nat) (z r g b : K) : Option (Shape K) :=
  let xmin : K := 0
  let xmax : K := (Ny : K)
  match createGridXYLoopX Nx xmin xmax z r g b (2 ^ 32) 0
      { stride := 6, texture := "", vertices := [], indices := [] } with
  | none => none
  | some shape =>
    let Sx := shape.indices.length
    let ymin : K := 0
    let ymax : K := (Nx : K)
    createGridXYLoopY Ny Sx ymin ymax z r g b (2 ^ 32) 0 shape

/-- Well-formed index data: the number of coordinates is a multiple of the stride and every
index is smaller than the number of vertices. -/
def Shape.WellFormed (s : Shape K) : Prop :=
  s.stride ∣ s.vertices.length ∧ ∀ i ∈ s.indices, i < s.vertices.length / s.stride

end MoreShapes

/-! ## Concrete inputs for the camera and the affine matrices -/

/-- The camera position `(0, 8, 4)`, as `viewPos` of `ex_scene_graph_3dcars.cpp` for a camera
angle of zero. -/
def sampleEye : Vector3f ℝ := ![0, 8, 4]

/-- The point the camera of the examples looks at. -/
def sampleTarget : Vector3f ℝ := ![0, 0, 0]

/-- The up direction of the examples. -/
def sampleUp : Vector3f ℝ := ![0, 0, 1]

/-! ## Lemmas on the searches -/

section Lemmas

variable {K : Type}

mutual
theorem findNode_eq_find? : ∀ (t : SceneGraphNode K) (name : String),
    findNode t name = (preorder t).find? (fun x => decide (x.name = name))
  | .mk n t s cs, name => by
    rw [findNode, preorder, List.find?_cons]
    by_cases h : n = name
    · simp [h, SceneGraphNode.name]
    · simp [h, SceneGraphNode.name, findNodeChilds_eq_find? cs name]
theorem findNodeChilds_eq_find? : ∀ (cs : List (SceneGraphNode K)) (name : String),
    findNodeChilds cs name = (preorderChilds cs).find? (fun x => decide (x.name = name))
  | [], _ => by simp [findNodeChilds, preorderChilds]
  | c :: cs, name => by
    rw [findNodeChilds, preorderChilds, List.find?_append, findNode_eq_find? c name,
      findNodeChilds_eq_find? cs name]
    cases List.find? (fun x => decide (x.name = name)) (preorder c) <;> simp
end

mutual
theorem preorder_eq_map_occurrences : ∀ (t : SceneGraphNode K),
    preorder t = (occurrences t).map Prod.snd
  | .mk n t s cs => by
    rw [preorder, occurrences, List.map_cons, List.map_map,
      preorderChilds_eq_map_occurrences cs]
    rfl
theorem preorderChilds_eq_map_occurrences : ∀ (cs : List (SceneGraphNode K)),
    preorderChilds cs = (occurrencesChilds cs).map Prod.snd
  | [] => by simp [preorderChilds, occurrencesChilds]
  | c :: cs => by
    rw [preorderChilds, occurrencesChilds, List.map_append, preorder_eq_map_occurrences c,
      preorderChilds_eq_map_occurrences cs]
end

theorem pathTransform_nil [Field K] (x : SceneGraphNode K) :
    pathTransform (([] : List (SceneGraphNode K)), x) = x.transform := by
  simp [pathTransform]

theorem pathTransform_cons [Field K] (a : SceneGraphNode K)
    (o : List (SceneGraphNode K) × SceneGraphNode K) :
    pathTransform (a :: o.1, o.2) = a.transform * pathTransform o := by
  simp [pathTransform]

mutual
theorem findTransform_eq_find? [Field K] : ∀ (t : SceneGraphNode K) (name : String)
    (P : Matrix4f K),
    findTransform t name P =
      ((occurrences t).find? (fun o => decide (o.2.name = name))).map
        (fun o => P * pathTransform o)
  | .mk n t s cs, name, P => by
    rw [findTransform, occurrences, List.find?_cons]
    by_cases h : n = name
    · simp [h, SceneGraphNode.name, pathTransform_nil, SceneGraphNode.transform]
    · simp only [h, if_false, SceneGraphNode.name, decide_False, List.find?_map,
        Option.map_map, findTransformChilds_eq_find? cs name (P * t)]
      congr 1
      funext o
      simp only [Function.comp, pathTransform_cons, SceneGraphNode.transform, Matrix.mul_assoc]
theorem findTransformChilds_eq_find? [Field K] : ∀ (cs : List (SceneGraphNode K))
    (name : String) (Q : Matrix4f K),
    findTransformChilds cs name Q =
      ((occurrencesChilds cs).find? (fun o => decide (o.2.name = name))).map
        (fun o => Q * pathTransform o)
  | [], _, _ => by simp [findTransformChilds, occurrencesChilds]
  | c :: cs, name, Q => by
    rw [findTransformChilds, occurrencesChilds, List.find?_append,
      findTransform_eq_find? c name Q, findTransformChilds_eq_find? cs name Q]
    cases List.find? (fun o => decide (o.2.name = name)) (occurrences c) <;> simp
end

theorem drawnShapes_append (a b : List (GLCall K)) :
    drawnShapes (a ++ b) = drawnShapes a ++ drawnShapes b := by
  induction a with
  | nil => simp [drawnShapes]
  | cons c a ih => cases c <;> simp [drawnShapes, ih]

mutual
theorem drawnShapes_draw [Field K] (pl : Pipeline) (tn : String) :
    ∀ (t : SceneGraphNode K) (P : Matrix4f K),
    drawnShapes (drawSceneGraphNode pl tn t P)
      = (preorder t).filterMap SceneGraphNode.gpuShapeMaybe
  | .mk n t s cs, P => by
    simp only [drawSceneGraphNode]
    rw [preorder, drawnShapes_append, drawnShapes_drawChilds pl tn cs (P * t)]
    cases s <;> simp [drawnShapes, SceneGraphNode.gpuShapeMaybe]
theorem drawnShapes_drawChilds [Field K] (pl : Pipeline) (tn : String) :
    ∀ (cs : List (SceneGraphNode K)) (Q : Matrix4f K),
    drawnShapes (drawSceneGraphChilds pl tn cs Q)
      = (preorderChilds cs).filterMap SceneGraphNode.gpuShapeMaybe
  | [], _ => by simp [drawSceneGraphChilds, preorderChilds, drawnShapes]
  | c :: cs, Q => by
    rw [drawSceneGraphChilds, preorderChilds, drawnShapes_append, List.filterMap_append,
      drawnShapes_draw pl tn c Q, drawnShapes_drawChilds pl tn cs Q]
end

mutual
theorem draw_eq_bind_occurrences [Field K] (pl : Pipeline) (tn : String) :
    ∀ (t : SceneGraphNode K) (P : Matrix4f K),
    drawSceneGraphNode pl tn t P
      = (occurrences t).flatMap (fun o => nodeCommands pl tn o.2 (P * pathTransform o))
  | .mk n t s cs, P => by
    simp only [drawSceneGraphNode]
    rw [occurrences, List.flatMap_cons, List.flatMap_map,
      drawChilds_eq_bind_occurrences pl tn cs (P * t)]
    simp only [pathTransform_nil, pathTransform_cons, SceneGraphNode.transform,
      Matrix.mul_assoc]
    cases s <;> rfl
theorem drawChilds_eq_bind_occurrences [Field K] (pl : Pipeline) (tn : String) :
    ∀ (cs : List (SceneGraphNode K)) (Q : Matrix4f K),
    drawSceneGraphChilds pl tn cs Q
      = (occurrencesChilds cs).flatMap (fun o => nodeCommands pl tn o.2 (Q * pathTransform o))
  | [], _ => by simp [drawSceneGraphChilds, occurrencesChilds]
  | c :: cs, Q => by
    rw [drawSceneGraphChilds, occurrencesChilds, List.flatMap_append,
      draw_eq_bind_occurrences pl tn c Q, drawChilds_eq_bind_occurrences pl tn cs Q]
end

theorem find?_eq_some_of_nodup_map {α β : Type} [DecidableEq β] (f : α → β) :
    ∀ (l : List α) (a : α), (l.map f).Nodup → a ∈ l →
      l.find? (fun b => decide (f b = f a)) = some a
  | [], _, _, h => by simp at h
  | b :: l, a, hn, h => by
    rw [List.map_cons, List.nodup_cons] at hn
    rw [List.find?_cons]
    rcases List.mem_cons.mp h with rfl | hmem
    · simp
    · have hne : f b ≠ f a := by
        intro hba
        exact hn.1 (hba ▸ List.mem_map_of_mem f hmem)
      simp only [hne, decide_False]
      exact find?_eq_some_of_nodup_map f l a hn.2 hmem

theorem findTransform_of_nodup [Field K] (root : SceneGraphNode K) (P : Matrix4f K)
    (hn : ((preorder root).map SceneGraphNode.name).Nodup)
    (o : List (SceneGraphNode K) × SceneGraphNode K) (ho : o ∈ occurrences root) :
    findTransform root o.2.name P = some (P * pathTransform o) := by
  rw [preorder_eq_map_occurrences, List.map_map] at hn
  rw [findTransform_eq_find?]
  have h := find?_eq_some_of_nodup_map (SceneGraphNode.name ∘ Prod.snd) (occurrences root) o hn ho
  simp only [Function.comp] at h
  rw [h]
  rfl

end Lemmas

/-! ## The scene graph searches and the drawing traversal -/

section SceneGraphClaims

variable {K : Type}

/-- C1: `findNode root name` returns a node exactly when some node of the tree rooted at `root`
(the root included) has the name `name`; a node it returns is a node of the tree and has that
name; and when no node has the name it returns the empty optional. -/
theorem findNode_some_iff_name_present (root : SceneGraphNode K) (name : String) :
    ((∃ r, findNode root name = some r) ↔ ∃ x ∈ preorder root, x.name = name) ∧
    (∀ r, findNode root name = some r → r ∈ preorder root ∧ r.name = name) ∧
    ((∀ x ∈ preorder root, x.name ≠ name) → findNode root name = none) := by
  rw [findNode_eq_find?]
  refine ⟨?_, ?_, ?_⟩
  · rw [← Option.isSome_iff_exists, List.find?_isSome]
    simp
  · intro r hr
    exact ⟨List.mem_of_find?_eq_some hr, by simpa using List.find?_some hr⟩
  · intro h
    rw [List.find?_eq_none]
    intro x hx
    simpa using h x hx

/-- C2: whenever `findTransform root name P` returns a matrix `M`, there is a first node
occurrence in depth-first pre-order whose name is `name`, and `M` is `P * T0 * T1 * ... * Tk`
for the local transforms `T0, ..., Tk` along the path from the root down to that occurrence. -/
theorem findTransform_eq_path_product [Field K] (root : SceneGraphNode K) (name : String)
    (P M : Matrix4f K) (h : findTransform root name P = some M) :
    ∃ o, (occurrences root).find? (fun o => decide (o.2.name = name)) = some o ∧
      M = P * ((o.1 ++ [o.2]).map SceneGraphNode.transform).prod := by
  rw [findTransform_eq_find?] at h
  cases hf : (occurrences root).find? (fun o => decide (o.2.name = name)) with
  | none => simp [hf] at h
  | some o =>
    refine ⟨o, rfl, ?_⟩
    rw [hf] at h
    simpa [pathTransform] using (Option.some.inj h).symm

/-- The matrix `findTransform` computes for the wheel rotation node of the sample car. -/
theorem findTransform_eq_path_product_witness :
    findTransform sampleCar "wheelRotation" (1 : Matrix4f ℚ)
      = some (1 * Transformations.identity * Transformations.translate (3/10) 0 (-3/10)
          * Transformations.identity) ∧
    ∃ o, (occurrences sampleCar).find? (fun o => decide (o.2.name = "wheelRotation")) = some o ∧
      (1 * Transformations.identity * Transformations.translate (3/10) 0 (-3/10)
          * Transformations.identity : Matrix4f ℚ)
        = 1 * ((o.1 ++ [o.2]).map SceneGraphNode.transform).prod :=
  ⟨rfl, findTransform_eq_path_product sampleCar "wheelRotation" 1 _ rfl⟩

/-- C3: `findNode root name` is the first node in depth-first pre-order (a node before its
descendants, children in stored order) whose name is `name`; in particular
`findNode root root.name` is `root` itself, whatever its descendants are called. -/
theorem findNode_first_in_preorder (root : SceneGraphNode K) (name : String) :
    findNode root name = (preorder root).find? (fun x => decide (x.name = name)) ∧
    findNode root root.name = some root := by
  refine ⟨findNode_eq_find? root name, ?_⟩
  cases root with
  | mk n t s cs => simp [findNode, SceneGraphNode.name]

/-- C4: in a tree whose node names are pairwise distinct, `findTransform root x.name P` returns
a matrix for every node `x`, and the commands of `drawSceneGraphNode root pipeline name P` are,
for the nodes `x` in pre-order, the upload of exactly that matrix followed by the draw call of
the shape of `x` when `x` carries one. -/
theorem draw_uploads_findTransform [Field K] (pipeline : Pipeline) (transformName : String)
    (root : SceneGraphNode K) (P : Matrix4f K)
    (hn : ((preorder root).map SceneGraphNode.name).Nodup) :
    (∀ x ∈ preorder root, ∃ M, findTransform root x.name P = some M) ∧
    drawSceneGraphNode pipeline transformName root P
      = (preorder root).flatMap (fun x =>
          match findTransform root x.name P with
          | some M => nodeCommands pipeline transformName x M
          | none => []) := by
  constructor
  · intro x hx
    rw [preorder_eq_map_occurrences, List.mem_map] at hx
    obtain ⟨o, ho, rfl⟩ := hx
    exact ⟨_, findTransform_of_nodup root P hn o ho⟩
  · rw [draw_eq_bind_occurrences, preorder_eq_map_occurrences, List.flatMap_map]
    apply List.flatMap_congr
    intro o ho
    simp only [findTransform_of_nodup root P hn o ho]

/-- The commands issued for the one-wheeled sample car, whose node names are distinct. -/
theorem draw_uploads_findTransform_witness :
    ((preorder sampleUnicycle).map SceneGraphNode.name).Nodup ∧
    (∀ x ∈ preorder sampleUnicycle, ∃ M, findTransform sampleUnicycle x.name 1 = some M) ∧
    drawSceneGraphNode ⟨7⟩ "model" sampleUnicycle 1
      = (preorder sampleUnicycle).flatMap (fun x =>
          match findTransform sampleUnicycle x.name 1 with
          | some M => nodeCommands ⟨7⟩ "model" x M
          | none => []) :=
  ⟨by decide, draw_uploads_findTransform ⟨7⟩ "model" sampleUnicycle 1 (by decide)⟩

/-- C5: the draw calls issued by `drawSceneGraphNode` are, in order, the shapes of the node
occurrences of the tree listed in depth-first pre-order: one draw call for each occurrence that
carries a shape, none for a node without a shape, a node before its descendants and the
subtrees of the children in their stored order. -/
theorem draw_calls_in_preorder [Field K] (pipeline : Pipeline) (transformName : String)
    (root : SceneGraphNode K) (P : Matrix4f K) :
    drawnShapes (drawSceneGraphNode pipeline transformName root P)
      = (preorder root).filterMap SceneGraphNode.gpuShapeMaybe :=
  drawnShapes_draw pipeline transformName root P

/-- C6: `findPosition root name P` is empty exactly when `findTransform root name P` is empty;
otherwise, for the matrix `M` that `findTransform` returns, it is `M * (0,0,0,1)`, which is the
fourth column of `M`. -/
theorem findPosition_eq_fourth_column [Field K] (root : SceneGraphNode K) (name : String)
    (P : Matrix4f K) :
    (findPosition root name P = none ↔ findTransform root name P = none) ∧
    ∀ M, findTransform root name P = some M →
      findPosition root name P = some (Matrix.mulVec M ![0, 0, 0, 1]) ∧
      Matrix.mulVec M ![0, 0, 0, 1] = fun i => M i 3 := by
  constructor
  · unfold findPosition
    cases findTransform root name P <;> simp
  · intro M hM
    constructor
    · unfold findPosition
      rw [hM]
    · funext i
      simp [Matrix.mulVec, Matrix.dotProduct, Fin.sum_univ_four]

end SceneGraphClaims

/-! ## Releasing and creating GPU objects -/

section GPUObjects

variable {K : Type}

mutual
theorem SceneGraphNode.clear_eq : ∀ (t : SceneGraphNode K) (gl : GLState),
    SceneGraphNode.clear t gl = gl
  | .mk _ _ _ cs, gl => by
    rw [SceneGraphNode.clear, SceneGraphNode.clearChilds_eq cs gl]
theorem SceneGraphNode.clearChilds_eq : ∀ (cs : List (SceneGraphNode K)) (gl : GLState),
    SceneGraphNode.clearChilds cs gl = gl
  | [], gl => by rw [SceneGraphNode.clearChilds]
  | c :: cs, gl => by
    rw [SceneGraphNode.clearChilds, SceneGraphNode.clear_eq c gl,
      SceneGraphNode.clearChilds_eq cs gl]
end

/-- C7: on a node that carries a shape whose vertex array and buffers are allocated,
`SceneGraphNode::clear()` returns with the driver state unchanged: the vertex array, the vertex
buffer and the element buffer of the shape are still allocated, whereas `GPUShape::clear()` on
that shape releases the three of them. -/
theorem clear_keeps_shape_allocated :
    SceneGraphNode.clear sampleShapeNode sampleGL = sampleGL ∧
    sampleShapeNode.gpuShapeMaybe = some (sampleShape 1 1 2) ∧
    (sampleShape 1 1 2).vao ∈ (SceneGraphNode.clear sampleShapeNode sampleGL).vertexArrays ∧
    (sampleShape 1 1 2).vbo ∈ (SceneGraphNode.clear sampleShapeNode sampleGL).buffers ∧
    (sampleShape 1 1 2).ebo ∈ (SceneGraphNode.clear sampleShapeNode sampleGL).buffers ∧
    GPUShape.clear (sampleShape 1 1 2) sampleGL = { vertexArrays := [], buffers := [] } := by
  refine ⟨SceneGraphNode.clear_eq _ _, rfl, ?_, ?_, ?_, by decide⟩ <;>
    rw [SceneGraphNode.clear_eq] <;> decide

/-- C8: `GPUShape::initBuffers()` stores three freshly generated object names in the shape it is
called on and returns the value of type `void`, not a `GPUShape`. -/
theorem initBuffers_returns_unit :
    GPUShape.initBuffers (sampleShape 0 0 0) sampleGL
      = ((), sampleShape 2 3 4, { vertexArrays := [2, 1], buffers := [4, 3, 1, 2] }) := by
  decide

end GPUObjects

/-! ## Projection matrices -/

namespace Transformations

section Projections

variable {K : Type} [Field K]

/-- C9: for `left ≠ right`, `bottom ≠ top` and `near ≠ far`, the matrix
`ortho left right bottom top near far` maps the corner `(left, bottom, -near, 1)` of the view
box to `(-1, -1, -1, 1)` and the opposite corner `(right, top, -far, 1)` to `(1, 1, 1, 1)`. -/
theorem ortho_maps_corners (left right bottom top near far : K)
    (h1 : left ≠ right) (h2 : bottom ≠ top) (h3 : near ≠ far) :
    Matrix.mulVec (ortho left right bottom top near far) ![left, bottom, -near, 1]
      = ![-1, -1, -1, 1] ∧
    Matrix.mulVec (ortho left right bottom top near far) ![right, top, -far, 1]
      = ![1, 1, 1, 1] := by
  have h1' : right - left ≠ 0 := sub_ne_zero.mpr (Ne.symm h1)
  have h2' : top - bottom ≠ 0 := sub_ne_zero.mpr (Ne.symm h2)
  have h3' : far - near ≠ 0 := sub_ne_zero.mpr (Ne.symm h3)
  constructor <;> funext i <;> fin_cases i <;>
    simp [ortho, Matrix.mulVec, Matrix.dotProduct, Fin.sum_univ_four] <;>
    field_simp <;> ring

/-- The corners of the view box `[0,2] x [0,2] x [1,3]` under `ortho`. -/
theorem ortho_maps_corners_witness :
    Matrix.mulVec (ortho (0 : ℚ) 2 0 2 1 3) ![0, 0, -1, 1] = ![-1, -1, -1, 1] ∧
    Matrix.mulVec (ortho (0 : ℚ) 2 0 2 1 3) ![2, 2, -3, 1] = ![1, 1, 1, 1] :=
  ortho_maps_corners 0 2 0 2 1 3 (by norm_num) (by norm_num) (by norm_num)

/-- C10, as amended: for `left ≠ right`, `bottom ≠ top`, `near ≠ far` and `near ≠ 0`, the matrix
`frustum left right bottom top near far` sends every point `(x, y, z, 1)` to a vector whose `w`
component is `-z`, the near corner `(left, bottom, -near, 1)` to `(-near, -near, -near, near)` and
the far corner `(right*far/near, top*far/near, -far, 1)` to `(far, far, far, far)`; division by
`w` turns the image of the near corner into `(-1, -1, -1)` and, when `far ≠ 0`, the image of the
far corner into `(1, 1, 1)`. -/
theorem frustum_maps_corners [DecidableEq K] (left right bottom top near far : K)
    (h1 : left ≠ right) (h2 : bottom ≠ top) (h3 : near ≠ far) (h4 : near ≠ 0) :
    (∀ x y z : K, Matrix.mulVec (frustum left right bottom top near far) ![x, y, z, 1] 3 = -z) ∧
    Matrix.mulVec (frustum left right bottom top near far) ![left, bottom, -near, 1]
      = ![-near, -near, -near, near] ∧
    Matrix.mulVec (frustum left right bottom top near far)
        ![right * far / near, top * far / near, -far, 1]
      = ![far, far, far, far] ∧
    perspectiveDivide
        (Matrix.mulVec (frustum left right bottom top near far) ![left, bottom, -near, 1])
      = some ![-1, -1, -1] ∧
    (far ≠ 0 →
      perspectiveDivide (Matrix.mulVec (frustum left right bottom top near far)
          ![right * far / near, top * far / near, -far, 1])
        = some ![1, 1, 1]) := by
  have h1' : right - left ≠ 0 := sub_ne_zero.mpr (Ne.symm h1)
  have h2' : top - bottom ≠ 0 := sub_ne_zero.mpr (Ne.symm h2)
  have h3' : far - near ≠ 0 := sub_ne_zero.mpr (Ne.symm h3)
  have hnear : Matrix.mulVec (frustum left right bottom top near far)
      ![left, bottom, -near, 1] = ![-near, -near, -near, near] := by
    funext i
    fin_cases i <;>
      simp [frustum, Matrix.mulVec, Matrix.dotProduct, Fin.sum_univ_four] <;>
      field_simp <;> ring
  have hfar : Matrix.mulVec (frustum left right bottom top near far)
      ![right * far / near, top * far / near, -far, 1] = ![far, far, far, far] := by
    funext i
    fin_cases i <;>
      simp [frustum, Matrix.mulVec, Matrix.dotProduct, Fin.sum_univ_four] <;>
      field_simp <;> ring
  refine ⟨?_, hnear, hfar, ?_, ?_⟩
  · intro x y z
    simp [frustum, Matrix.mulVec, Matrix.dotProduct, Fin.sum_univ_four]
  · rw [hnear]
    have : (![-near, -near, -near, near] : Vector4f K) 3 = near := rfl
    simp only [perspectiveDivide, this, h4, if_false]
    congr 1
    funext i
    fin_cases i <;> simp [neg_div, div_self h4]
  · intro h5
    rw [hfar]
    have : (![far, far, far, far] : Vector4f K) 3 = far := rfl
    simp only [perspectiveDivide, this, h5, if_false]
    congr 1
    funext i
    fin_cases i <;> simp [div_self h5]

/-- The corners of the frustum with `near = 1` and `far = 3` over the square `[-1,1] x [-1,1]`. -/
theorem frustum_maps_corners_witness :
    (∀ x y z : ℚ, Matrix.mulVec (frustum (-1 : ℚ) 1 (-1) 1 1 3) ![x, y, z, 1] 3 = -z) ∧
    Matrix.mulVec (frustum (-1 : ℚ) 1 (-1) 1 1 3) ![-1, -1, -1, 1] = ![-1, -1, -1, 1] ∧
    Matrix.mulVec (frustum (-1 : ℚ) 1 (-1) 1 1 3) ![1 * 3 / 1, 1 * 3 / 1, -3, 1]
      = ![3, 3, 3, 3] ∧
    perspectiveDivide (Matrix.mulVec (frustum (-1 : ℚ) 1 (-1) 1 1 3) ![-1, -1, -1, 1])
      = some ![-1, -1, -1] ∧
    ((3 : ℚ) ≠ 0 →
      perspectiveDivide
          (Matrix.mulVec (frustum (-1 : ℚ) 1 (-1) 1 1 3) ![1 * 3 / 1, 1 * 3 / 1, -3, 1])
        = some ![1, 1, 1]) :=
  frustum_maps_corners (-1) 1 (-1) 1 1 3 (by norm_num) (by norm_num) (by norm_num)
    (by norm_num)

/-- C10, as stated, fails for `far = 0`: with `left = 0`, `right = 1`, `bottom = 0`, `top = 1`,
`near = 1` and `far = 0` the four conditions hold, the far corner `(0, 0, 0, 1)` is sent to
`(0, 0, 0, 0)`, and no division by `w = 0` turns that into `(1, 1, 1)`. -/
theorem frustum_far_zero_counterexample :
    (0 : ℚ) ≠ 1 ∧ (0 : ℚ) ≠ 1 ∧ (1 : ℚ) ≠ 0 ∧ (1 : ℚ) ≠ 0 ∧
    Matrix.mulVec (frustum (0 : ℚ) 1 0 1 1 0) ![1 * 0 / 1, 1 * 0 / 1, -0, 1] = ![0, 0, 0, 0] ∧
    perspectiveDivide (Matrix.mulVec (frustum (0 : ℚ) 1 0 1 1 0) ![1 * 0 / 1, 1 * 0 / 1, -0, 1])
      ≠ some ![1, 1, 1] := by
  have hv : Matrix.mulVec (frustum (0 : ℚ) 1 0 1 1 0) ![1 * 0 / 1, 1 * 0 / 1, -0, 1]
      = ![0, 0, 0, 0] := by
    funext i
    fin_cases i <;> simp [frustum, Matrix.mulVec, Matrix.dotProduct, Fin.sum_univ_four]
  refine ⟨by norm_num, by norm_num, by norm_num, by norm_num, hv, ?_⟩
  rw [hv]
  simp [perspectiveDivide]

end Projections

section MoreTransformations

variable {K : Type} [Field K]

/-- C11: `perspective fovy aspect near far` is `frustum (-w) w (-h) h near far` for
`h = tan (pi * fovy / 360) * near` and `w = h * aspect`; hence, over the real numbers, when
`near`, `aspect` and `tan (pi * fovy / 360)` are not zero, its entries `(0,2)` and `(1,2)` are
`0`, its entry `(1,1)` is `1 / tan (pi * fovy / 360)` and its entry `(0,0)` is the entry `(1,1)`
divided by `aspect`. -/
theorem perspective_eq_frustum (fovy aspect near far : ℝ)
    (hnear : near ≠ 0) (haspect : aspect ≠ 0) (htan : Real.tan (Real.pi * fovy / 360) ≠ 0) :
    perspective Real.tan Real.pi fovy aspect near far
      = frustum (-(Real.tan (Real.pi * fovy / 360) * near * aspect))
          (Real.tan (Real.pi * fovy / 360) * near * aspect)
          (-(Real.tan (Real.pi * fovy / 360) * near))
          (Real.tan (Real.pi * fovy / 360) * near) near far ∧
    perspective Real.tan Real.pi fovy aspect near far 0 2 = 0 ∧
    perspective Real.tan Real.pi fovy aspect near far 1 2 = 0 ∧
    perspective Real.tan Real.pi fovy aspect near far 1 1
      = 1 / Real.tan (Real.pi * fovy / 360) ∧
    perspective Real.tan Real.pi fovy aspect near far 0 0
      = perspective Real.tan Real.pi fovy aspect near far 1 1 / aspect := by
  refine ⟨rfl, ?_, ?_, ?_, ?_⟩
  · simp [perspective, frustum]
  · simp [perspective, frustum]
  · simp [perspective, frustum]
    field_simp
    ring
  · simp [perspective, frustum]
    field_simp
    ring

/-- The perspective matrix for a field of view of 90 degrees, whose half angle has tangent 1. -/
theorem perspective_eq_frustum_witness :
    perspective Real.tan Real.pi 90 2 1 10
      = frustum (-(Real.tan (Real.pi * 90 / 360) * 1 * 2))
          (Real.tan (Real.pi * 90 / 360) * 1 * 2)
          (-(Real.tan (Real.pi * 90 / 360) * 1))
          (Real.tan (Real.pi * 90 / 360) * 1) 1 10 ∧
    perspective Real.tan Real.pi 90 2 1 10 0 2 = 0 ∧
    perspective Real.tan Real.pi 90 2 1 10 1 2 = 0 ∧
    perspective Real.tan Real.pi 90 2 1 10 1 1 = 1 / Real.tan (Real.pi * 90 / 360) ∧
    perspective Real.tan Real.pi 90 2 1 10 0 0
      = perspective Real.tan Real.pi 90 2 1 10 1 1 / 2 :=
  perspective_eq_frustum 90 2 1 10 (by norm_num) (by norm_num) (by
    have h : Real.pi * 90 / 360 = Real.pi / 4 := by ring
    rw [h, Real.tan_pi_div_four]
    norm_num)

/-- C12: in homogeneous coordinates `translate tx ty tz` sends every point `(x, y, z, 1)` to
`(x + tx, y + ty, z + tz, 1)` and leaves every direction `(x, y, z, 0)` unchanged. -/
theorem translate_point_and_direction (tx ty tz x y z : K) :
    Matrix.mulVec (translate tx ty tz) ![x, y, z, 1] = ![x + tx, y + ty, z + tz, 1] ∧
    Matrix.mulVec (translate tx ty tz) ![x, y, z, 0] = ![x, y, z, 0] := by
  constructor <;> funext i <;> fin_cases i <;>
    simp [translate, Matrix.mulVec, Matrix.dotProduct, Fin.sum_univ_four]

end MoreTransformations

end Transformations

/-! ## The car of `ex_scene_graph_3dcars.cpp` and agreement of the searches -/

section MoreSceneGraph

variable {K : Type} [Field K]

/-- C13: for every colour `(r, g, b)` (and every driver state) `findNode` finds a node named
"wheelRotation" in the scene graph returned by `createCar`; the node found is the first
occurrence of that name in pre-order, and its ancestors are the root `car` and `frontWheel`. -/
theorem createCar_has_wheelRotation (gl : GLState) (r g b : K) :
    (findNode (createCar gl r g b).1 "wheelRotation").isSome = true ∧
    ∃ o, (occurrences (createCar gl r g b).1).find?
          (fun o => decide (o.2.name = "wheelRotation")) = some o ∧
      findNode (createCar gl r g b).1 "wheelRotation" = some o.2 ∧
      o.2.name = "wheelRotation" ∧
      o.1.map SceneGraphNode.name = ["car", "frontWheel"] :=
  ⟨rfl, _, rfl, rfl, rfl, rfl⟩

/-- C20: `findTransform root name P` has a value exactly when `findNode root name` has one,
for every tree, name and parent matrix. -/
theorem findTransform_isSome_iff_findNode (root : SceneGraphNode K) (name : String)
    (P : Matrix4f K) :
    (findTransform root name P).isSome = (findNode root name).isSome := by
  rw [findTransform_eq_find?, findNode_eq_find?, preorder_eq_map_occurrences, List.find?_map]
  simp only [Option.isSome_map']
  rfl

end MoreSceneGraph

/-! ## Shape selection and joystick polling -/

section Examples

/-- C17: in `ex_lighting.cpp` with its ten shapes, one `DOWN` press at the last shape selects
the first and one `UP` press at the first selects the last; but after two `DOWN` presses
delivered in one frame at the last shape (index 9) the wrap-around step leaves the index at
11, and `gpuShapes.at` is out of range. -/
theorem selectShape_two_presses_out_of_range :
    selectShape sampleGpuShapes (sampleAppState 9) [(GLFW_KEY_DOWN, GLFW_PRESS)]
      = (sampleAppState 0, some 0) ∧
    selectShape sampleGpuShapes (sampleAppState 0) [(GLFW_KEY_UP, GLFW_PRESS)]
      = (sampleAppState 9, some 9) ∧
    selectShape sampleGpuShapes (sampleAppState 9)
        [(GLFW_KEY_DOWN, GLFW_PRESS), (GLFW_KEY_DOWN, GLFW_PRESS)]
      = (sampleAppState 11, none) := by
  decide

variable {K : Type} [Field K]

theorem pollJoystick_other (glfw : Glfw K) (joysticks joysticks' : JoystickContainer K)
    (joystickId j : Nat) (h : pollJoystick glfw joysticks joystickId = some joysticks')
    (hj : j ≠ joystickId) : joysticks' j = joysticks j := by
  unfold pollJoystick at h
  split_ifs at h with h1 h2 h3
  · cases h
    simp [JoystickContainer.set, hj]
  · cases h
    rfl
  · simp only [JoystickContainer.set, if_true] at h
    split_ifs at h with h4 h5
    cases h
    simp [JoystickContainer.set, hj]
  · cases hm : joysticks joystickId with
    | none => simp [hm] at h3
    | some joystick =>
      simp only [hm] at h
      split_ifs at h with h4 h5
      cases h
      simp [JoystickContainer.set, hj]

theorem foldlM_pollJoystick_other (glfw : Glfw K) (j : Nat) :
    ∀ (ids : List Nat) (joysticks joysticks' : JoystickContainer K),
      (∀ id ∈ ids, j ≠ id) → ids.foldlM (pollJoystick glfw) joysticks = some joysticks' →
      joysticks' j = joysticks j
  | [], joysticks, joysticks', _, h => by
    simp only [List.foldlM_nil] at h
    cases h
    rfl
  | id :: ids, joysticks, joysticks', hids, h => by
    rw [List.foldlM_cons] at h
    cases hstep : pollJoystick glfw joysticks id with
    | none => simp [hstep] at h
    | some mid =>
      rw [hstep] at h
      have h1 := pollJoystick_other glfw joysticks mid id j hstep
        (hids id (List.mem_cons_self _ _))
      have h2 := foldlM_pollJoystick_other glfw j ids mid joysticks'
        (fun x hx => hids x (List.mem_cons_of_mem _ hx)) h
      rw [h2, h1]

/-- C18: `pollJoysticks` never touches the entry of the joystick `GLFW_JOYSTICK_LAST`: whenever
it returns, the container has an entry for that id exactly when it had one before the call,
whatever GLFW reports about the joystick. -/
theorem pollJoysticks_skips_last (glfw : Glfw K) (joysticks joysticks' : JoystickContainer K)
    (h : pollJoysticks glfw joysticks = some joysticks') :
    joysticks' GLFW_JOYSTICK_LAST = joysticks GLFW_JOYSTICK_LAST := by
  refine foldlM_pollJoystick_other glfw GLFW_JOYSTICK_LAST _ joysticks joysticks' ?_ h
  intro id hid
  rw [List.mem_range'_1] at hid
  have : id < 15 := hid.2
  show 15 ≠ id
  omega

/-- With only the joystick `GLFW_JOYSTICK_LAST` present and an empty container,
`pollJoysticks` returns a container without an entry for it. -/
theorem pollJoysticks_skips_last_witness :
    sampleGlfw.joystickPresent GLFW_JOYSTICK_LAST = true ∧
    ∃ c, pollJoysticks sampleGlfw noJoysticks = some c ∧
      c GLFW_JOYSTICK_LAST = noJoysticks GLFW_JOYSTICK_LAST ∧
      (noJoysticks GLFW_JOYSTICK_LAST).isSome = false := by
  refine ⟨by decide, ?_⟩
  cases hc : pollJoysticks sampleGlfw noJoysticks with
  | none =>
    have hsome : (pollJoysticks sampleGlfw noJoysticks).isSome = true := by decide
    rw [hc] at hsome
    cases hsome
  | some c => exact ⟨c, rfl, pollJoysticks_skips_last sampleGlfw noJoysticks c hc, rfl⟩

end Examples

/-! ## Shape generators -/

section ShapeGenerators

variable {K : Type} [Field K]

theorem createColorCircleLoop_spec (cos sin : K → K) (dtheta r g b : K) (bound : Nat)
    (hb : bound + 1 < 2 ^ 32) :
    ∀ (fuel i : Nat) (shape : Shape K), 1 ≤ i → i ≤ bound + 1 → bound + 1 - i < fuel →
      ∃ s, createColorCircleLoop cos sin dtheta r g b bound fuel i shape = some s ∧
        s.vertices.length = shape.vertices.length + 6 * (bound + 1 - i) ∧
        s.indices = shape.indices ++
          (List.range' i (bound + 1 - i)).flatMap (fun j => [0, j - 1, j])
  | 0, i, shape, _, _, hf => by omega
  | fuel + 1, i, shape, h1, h2, hf => by
    rw [createColorCircleLoop]
    by_cases hi : i ≤ bound
    · rw [if_pos hi]
      have hi1 : (i + 1) % 2 ^ 32 = i + 1 := Nat.mod_eq_of_lt (by omega)
      have hi2 : (i + (2 ^ 32 - 1)) % 2 ^ 32 = i - 1 := by omega
      rw [hi1, hi2]
      obtain ⟨s, hs, hv, hidx⟩ := createColorCircleLoop_spec cos sin dtheta r g b bound hb
        fuel (i + 1) _ (by omega) (by omega) (by omega)
      refine ⟨s, hs, ?_, ?_⟩
      · rw [hv]
        simp only [List.length_append, List.length_cons, List.length_nil]
        omega
      · rw [hidx]
        have hlen : bound + 1 - i = (bound + 1 - (i + 1)) + 1 := by omega
        rw [hlen, List.range'_succ, List.flatMap_cons, List.append_assoc]
    · rw [if_neg hi]
      have hz : bound + 1 - i = 0 := by omega
      exact ⟨shape, rfl, by simp [hz], by simp [hz]⟩

theorem length_flatMap_triangle (f : Nat → Nat) :
    ∀ (n i : Nat), ((List.range' i n).flatMap (fun j => [0, f j, j])).length = 3 * n
  | 0, _ => by simp
  | n + 1, i => by
    rw [List.range'_succ, List.flatMap_cons, List.length_append,
      length_flatMap_triangle f n (i + 1)]
    simp only [List.length_cons, List.length_nil]
    omega

/-- C15: for `steps + 2 < 2^32`, `createColorCircle steps r g b` returns a shape with
`6 * (steps + 3)` vertex coordinates and `3 * (steps + 1)` indices, the triangles being
`(0, j - 1, j)` for `j = 1, ..., steps + 1`: two vertices and one triangle more than the
`6 * (steps + 1)` coordinates and `3 * steps` indices it reserves. -/
theorem createColorCircle_sizes (cos sin : K → K) (steps : Nat) (r g b : K)
    (hsteps : steps + 2 < 2 ^ 32) :
    ∃ s, createColorCircle cos sin steps r g b = some s ∧
      s.vertices.length = 6 * (steps + 3) ∧
      s.indices.length = 3 * (steps + 1) ∧
      s.indices = (List.range' 1 (steps + 1)).flatMap (fun j => [0, j - 1, j]) := by
  have hbound : (steps + 1) % 2 ^ 32 = steps + 1 := Nat.mod_eq_of_lt (by omega)
  unfold createColorCircle
  rw [hbound]
  obtain ⟨s, hs, hv, hidx⟩ := createColorCircleLoop_spec cos sin
    (2 * 3.1415 / (steps : K)) r g b (steps + 1) (by omega) (2 ^ 32) 1
    { stride := 6, texture := "",
      vertices := [0.0, 0.0, 0.0, r, g, b] ++ [0.5, 0.0, 0.0, r, g, b], indices := [] }
    (le_refl 1) (by omega) (by omega)
  refine ⟨s, hs, ?_, ?_, ?_⟩
  · rw [hv]
    simp only [List.length_append, List.length_cons, List.length_nil]
    omega
  · rw [hidx, List.nil_append, length_flatMap_triangle]
    omega
  · rw [hidx, List.nil_append]
    rfl

/-- The circle of `ex_joystick.cpp`, `createColorCircle(20, ...)`: 138 coordinates where 126
are reserved, 63 indices where 60 are reserved, and a first triangle `(0, 0, 1)`. -/
theorem createColorCircle_sizes_witness :
    ∃ s, createColorCircle (fun _ => (0 : ℚ)) (fun _ => 0) 20 1 0 0 = some s ∧
      s.vertices.length = 6 * (20 + 3) ∧
      s.indices.length = 3 * (20 + 1) ∧
      s.indices = (List.range' 1 (20 + 1)).flatMap (fun j => [0, j - 1, j]) :=
  createColorCircle_sizes (fun _ => (0 : ℚ)) (fun _ => 0) 20 1 0 0 (by norm_num)

end ShapeGenerators

/-! ## The cubes -/

section Cubes

variable {K : Type} [LinearOrderedField K]

theorem colorNormalsCube_position (r g b : K) (i : Nat) (hi : i < 24) :
    (createColorNormalsCube r g b).position i =
      ([
        ![-0.5, -0.5, 0.5], ![0.5, -0.5, 0.5], ![0.5, 0.5, 0.5], ![-0.5, 0.5, 0.5],
        ![-0.5, -0.5, -0.5], ![0.5, -0.5, -0.5], ![0.5, 0.5, -0.5], ![-0.5, 0.5, -0.5],
        ![0.5, -0.5, -0.5], ![0.5, 0.5, -0.5], ![0.5, 0.5, 0.5], ![0.5, -0.5, 0.5],
        ![-0.5, -0.5, -0.5], ![-0.5, 0.5, -0.5], ![-0.5, 0.5, 0.5], ![-0.5, -0.5, 0.5],
        ![-0.5, 0.5, -0.5], ![0.5, 0.5, -0.5], ![0.5, 0.5, 0.5], ![-0.5, 0.5, 0.5],
        ![-0.5, -0.5, -0.5], ![0.5, -0.5, -0.5], ![0.5, -0.5, 0.5], ![-0.5, -0.5, 0.5]] : List (Fin 3 → K)).getD i 0 := by
  interval_cases i <;> rfl

theorem colorNormalsCube_normal (r g b : K) (i : Nat) (hi : i < 24) :
    (createColorNormalsCube r g b).normal i =
      ([
        ![0.0, 0.0, 1.0], ![0.0, 0.0, 1.0], ![0.0, 0.0, 1.0], ![0.0, 0.0, 1.0],
        ![0.0, 0.0, -1.0], ![0.0, 0.0, -1.0], ![0.0, 0.0, -1.0], ![0.0, 0.0, -1.0],
        ![1.0, 0.0, 0.0], ![1.0, 0.0, 0.0], ![1.0, 0.0, 0.0], ![1.0, 0.0, 0.0],
        ![-1.0, 0.0, 0.0], ![-1.0, 0.0, 0.0], ![-1.0, 0.0, 0.0], ![-1.0, 0.0, 0.0],
        ![0.0, 1.0, 0.0], ![0.0, 1.0, 0.0], ![0.0, 1.0, 0.0], ![0.0, 1.0, 0.0],
        ![0.0, -1.0, 0.0], ![0.0, -1.0, 0.0], ![0.0, -1.0, 0.0], ![0.0, -1.0, 0.0]] : List (Fin 3 → K)).getD i 0 := by
  interval_cases i <;> rfl

theorem colorNormalsCube_triangles (r g b : K) :
    triangles (createColorNormalsCube r g b).indices =
      [(0, 1, 2), (2, 3, 0), (7, 6, 5), (5, 4, 7), (8, 9, 10), (10, 11, 8),
       (15, 14, 13), (13, 12, 15), (19, 18, 17), (17, 16, 19), (20, 21, 22), (22, 23, 20)] :=
  rfl

set_option maxHeartbeats 8000000 in
/-- C14: in `createColorNormalsCube r g b` every triangle `(i0, i1, i2)` of the index list has
at each of its three vertices the stored normal `n` of the face its group is labelled with
(`Z+`, `Z-`, `X+`, `X-`, `Y+`, `Y-`, two triangles for each group), that normal satisfies
`n · position = 0.5`, and the cross product `(v1 - v0) × (v2 - v0)` of the vertex positions is a
positive multiple of it. -/
theorem colorNormalsCube_face_normals (r g b : K) :
    List.Forall₂
      (fun (t : Nat × Nat × Nat) (n : Fin 3 → K) =>
        ∀ i ∈ [t.1, t.2.1, t.2.2],
          (createColorNormalsCube r g b).normal i = n ∧
          Matrix.dotProduct n ((createColorNormalsCube r g b).position i) = 0.5 ∧
          ∃ c : K, 0 < c ∧
            crossProduct
                ((createColorNormalsCube r g b).position t.2.1
                  - (createColorNormalsCube r g b).position t.1)
                ((createColorNormalsCube r g b).position t.2.2
                  - (createColorNormalsCube r g b).position t.1)
              = c • (createColorNormalsCube r g b).normal i)
      (triangles (createColorNormalsCube r g b).indices)
      (labelledFaceNormals.flatMap (fun n => [n, n])) := by
  rw [colorNormalsCube_triangles]
  simp only [labelledFaceNormals, List.flatMap_cons, List.flatMap_nil, List.cons_append,
    List.nil_append, List.append_nil]
  simp only [List.forall₂_cons, List.forall₂_nil_left_iff, and_true]
  refine ⟨?_, ?_, ?_, ?_, ?_, ?_, ?_, ?_, ?_, ?_, ?_, ?_⟩
  all_goals
    intro i hi
    simp only [List.mem_cons, List.mem_singleton, List.not_mem_nil, or_false] at hi
    rcases hi with rfl | rfl | rfl <;>
    · refine ⟨?_, ?_, 1, one_pos, ?_⟩
      · simp [colorNormalsCube_normal]
        try norm_num
      · simp [colorNormalsCube_normal, colorNormalsCube_position, Matrix.dotProduct,
          Fin.sum_univ_three]
        try norm_num
      · simp [colorNormalsCube_normal, colorNormalsCube_position, cross_apply]
        try norm_num

theorem cube_position (r g b : K) (s : Shape K)
    (hs : s ∈ [createColorCube r g b, createRainbowCube]) (i : Nat) (hi : i < 8) :
    s.position i =
      ([![-0.5, -0.5, 0.5], ![0.5, -0.5, 0.5], ![0.5, 0.5, 0.5], ![-0.5, 0.5, 0.5],
        ![-0.5, -0.5, -0.5], ![0.5, -0.5, -0.5], ![0.5, 0.5, -0.5], ![-0.5, 0.5, -0.5]] :
          List (Fin 3 → K)).getD i 0 := by
  simp only [List.mem_cons, List.mem_singleton, List.not_mem_nil, or_false] at hs
  rcases hs with rfl | rfl <;> interval_cases i <;> rfl

theorem cube_rows (r g b : K) (s : Shape K)
    (hs : s ∈ [createColorCube r g b, createRainbowCube]) :
    rows s.indices =
      [[0, 1, 2, 2, 3, 0], [4, 5, 6, 6, 7, 4], [4, 5, 1, 1, 0, 4],
       [6, 7, 3, 3, 2, 6], [5, 6, 2, 2, 1, 5], [7, 4, 0, 0, 3, 7]] := by
  simp only [List.mem_cons, List.mem_singleton, List.not_mem_nil, or_false] at hs
  rcases hs with rfl | rfl <;> rfl

set_option maxHeartbeats 4000000 in
/-- C16: in `createColorCube` and `createRainbowCube` the index list is made of six groups of
six indices; each group forms two triangles with four distinct vertices, all of which have one
coordinate equal to `+0.5` or all equal to `-0.5` (the face of `cubeRowFaces` for that row), and
the six rows cover the six different faces of the cube. -/
theorem cube_rows_are_faces (r g b : K) :
    (∀ s ∈ [createColorCube r g b, createRainbowCube],
      (rows s.indices).flatten = s.indices ∧
      List.Forall₂
        (fun (row : List Nat) (face : Fin 3 × Bool) =>
          (triangles row).length = 2 ∧ row.dedup.length = 4 ∧
          ∀ i ∈ row, s.position i face.1 = if face.2 = true then 0.5 else -0.5)
        (rows s.indices) cubeRowFaces) ∧
    cubeRowFaces.Nodup ∧ ∀ face : Fin 3 × Bool, face ∈ cubeRowFaces := by
  refine ⟨?_, by decide, by decide⟩
  intro s hs
  constructor
  · simp only [List.mem_cons, List.mem_singleton, List.not_mem_nil, or_false] at hs
    rcases hs with rfl | rfl <;> rfl
  · rw [cube_rows r g b s hs]
    simp only [cubeRowFaces, List.forall₂_cons, List.forall₂_nil_left_iff, and_true]
    refine ⟨?_, ?_, ?_, ?_, ?_, ?_⟩
    all_goals
      refine ⟨rfl, by decide, ?_⟩
      intro i hi
      simp only [List.mem_cons, List.mem_singleton, List.not_mem_nil, or_false] at hi
      rcases hi with rfl | rfl | rfl | rfl | rfl | rfl <;>
        simp [cube_position r g b s hs]

end Cubes

/-! ## The primality test of `ex_threads.cpp` -/

section Primes

theorem isPrimeLoop_spec (n : Nat) (hn : n + 24 < 2 ^ 32) (hn2 : 2 ≤ n) :
    ∀ (fuel i : Nat), i % 6 = 5 → 4 * i ≤ n + 24 → n + 24 < 24 * fuel + 4 * i →
      (∀ d, 2 ≤ d → d < i → ¬ d ∣ n) →
      isPrimeLoop n fuel i = some (decide (Nat.Prime n))
  | 0, i, _, h4, hf, _ => by omega
  | fuel + 1, i, h6, h4, hf, hno => by
    have hshift : (i <<< 2) % 2 ^ 32 = 4 * i := by
      rw [Nat.shiftLeft_eq]
      omega
    rw [isPrimeLoop, hshift]
    by_cases hguard : 4 * i ≤ n
    · rw [if_pos hguard]
      have hi2 : (i + 2) % 2 ^ 32 = i + 2 := by omega
      have hi6 : (i + 6) % 2 ^ 32 = i + 6 := by omega
      rw [hi2, hi6]
      by_cases hdiv : n % i = 0 ∨ n % (i + 2) = 0
      · rw [if_pos hdiv]
        have hnp : ¬ Nat.Prime n := by
          intro hp
          rcases hdiv with h | h
          · rcases (Nat.dvd_prime hp).mp (Nat.dvd_of_mod_eq_zero h) with h1 | h1 <;> omega
          · rcases (Nat.dvd_prime hp).mp (Nat.dvd_of_mod_eq_zero h) with h1 | h1 <;> omega
        simp [hnp]
      · rw [if_neg hdiv]
        push_neg at hdiv
        apply isPrimeLoop_spec n hn hn2 fuel (i + 6) (by omega) (by omega) (by omega)
        intro d hd2 hdlt hdvd
        by_cases hlt : d < i
        · exact hno d hd2 hlt hdvd
        · have h2 : ¬ 2 ∣ n := hno 2 (le_refl 2) (by omega)
          have h3 : ¬ 3 ∣ n := hno 3 (by norm_num) (by omega)
          have hcases : d = i ∨ d = i + 2 ∨ 2 ∣ d ∨ 3 ∣ d := by omega
          rcases hcases with rfl | rfl | h | h
          · exact hdiv.1 (Nat.mod_eq_zero_of_dvd hdvd)
          · exact hdiv.2 (Nat.mod_eq_zero_of_dvd hdvd)
          · exact h2 (dvd_trans h hdvd)
          · exact h3 (dvd_trans h hdvd)
    · rw [if_neg hguard]
      have hp : Nat.Prime n := by
        rw [Nat.prime_def_lt]
        refine ⟨hn2, ?_⟩
        intro m hm hdvd
        by_contra hm1
        have hm0 : m ≠ 0 := by
          rintro rfl
          have := Nat.eq_zero_of_zero_dvd hdvd
          omega
        by_cases hlt : m < i
        · exact hno m (by omega) hlt hdvd
        · obtain ⟨k, hk⟩ := hdvd
          have hk3 : k ≤ 3 := by
            by_contra hk4
            have : m * 4 ≤ m * k := Nat.mul_le_mul_left m (by omega)
            omega
          have h2 : ¬ 2 ∣ n := hno 2 (le_refl 2) (by omega)
          have h3 : ¬ 3 ∣ n := hno 3 (by norm_num) (by omega)
          interval_cases k
          · omega
          · omega
          · exact h2 ⟨m, by omega⟩
          · exact h3 ⟨m, by omega⟩
      simp [hp]

/-- C19: for every `n < 2^32 - 24` (so that `i << 2` cannot overflow a 32 bit `unsigned int`),
`isPrime n` returns, and returns `true` exactly when `n` is a prime number. -/
theorem isPrime_correct (n : Nat) (hn : n < 2 ^ 32 - 24) :
    isPrime n = some (decide (Nat.Prime n)) := by
  unfold isPrime
  by_cases h3 : n ≤ 3
  · rw [if_pos h3]
    interval_cases n <;> simp <;> norm_num
  · rw [if_neg h3]
    by_cases h23 : n % 2 = 0 ∨ n % 3 = 0
    · rw [if_pos h23]
      have hnp : ¬ Nat.Prime n := by
        intro hp
        rcases h23 with h | h
        · rcases (Nat.dvd_prime hp).mp (Nat.dvd_of_mod_eq_zero h) with h1 | h1 <;> omega
        · rcases (Nat.dvd_prime hp).mp (Nat.dvd_of_mod_eq_zero h) with h1 | h1 <;> omega
      simp [hnp]
    · rw [if_neg h23]
      push_neg at h23
      apply isPrimeLoop_spec n (by omega) (by omega) (2 ^ 32) 5 (by norm_num) (by omega)
        (by omega)
      intro d hd2 hdlt hdvd
      have hcases : 2 ∣ d ∨ d = 3 := by omega
      rcases hcases with h | rfl
      · exact h23.1 (Nat.mod_eq_zero_of_dvd (dvd_trans h hdvd))
      · exact h23.2 (Nat.mod_eq_zero_of_dvd hdvd)

/-- The primality test on 97 and on 91 = 7 * 13. -/
theorem isPrime_correct_witness :
    isPrime 97 = some (decide (Nat.Prime 97)) ∧ isPrime 97 = some true ∧
    isPrime 91 = some false :=
  ⟨isPrime_correct 97 (by norm_num), by decide, by decide⟩

end Primes

/-! ## Linearity in the parent transform and affine matrices -/

section Affine

variable {K : Type} [Field K]

/-- C21: `findTransform root name P` is `findTransform root name identity` with every returned
matrix `M` replaced by `P * M`, and empty when that is empty. -/
theorem findTransform_left_linear (root : SceneGraphNode K) (name : String) (P : Matrix4f K) :
    findTransform root name P
      = (findTransform root name Transformations.identity).map (fun M => P * M) := by
  rw [findTransform_eq_find?, findTransform_eq_find?, Option.map_map]
  congr 1
  funext o
  simp [Transformations.identity]

theorem one_lastRow : (1 : Matrix4f K) 3 = ![0, 0, 0, 1] := by
  funext j
  rw [Matrix.one_apply]
  fin_cases j <;> simp

theorem lastRow_mul (A B : Matrix4f K) (hA : A 3 = ![0, 0, 0, 1]) (hB : B 3 = ![0, 0, 0, 1]) :
    (A * B) 3 = ![0, 0, 0, 1] := by
  have h0 : A 3 0 = 0 := by rw [hA]; rfl
  have h1 : A 3 1 = 0 := by rw [hA]; rfl
  have h2 : A 3 2 = 0 := by rw [hA]; rfl
  have h3 : A 3 3 = 1 := by rw [hA]; rfl
  funext j
  rw [Matrix.mul_apply, Fin.sum_univ_four, h0, h1, h2, h3, ← hB]
  simp

mutual
theorem findTransform_lastRow : ∀ (t : SceneGraphNode K) (name : String) (P M : Matrix4f K),
    P 3 = ![0, 0, 0, 1] → (∀ x ∈ preorder t, x.transform 3 = ![0, 0, 0, 1]) →
    findTransform t name P = some M → M 3 = ![0, 0, 0, 1]
  | .mk n t s cs, name, P, M, hP, hT, h => by
    rw [findTransform] at h
    have ht : t 3 = ![0, 0, 0, 1] :=
      hT (.mk n t s cs) (by rw [preorder]; exact List.mem_cons_self _ _)
    have hPt := lastRow_mul P t hP ht
    by_cases hn : n = name
    · simp only [hn, if_true, Option.some.injEq] at h
      rw [← h]
      exact hPt
    · simp only [hn, if_false] at h
      exact findTransformChilds_lastRow cs name (P * t) M hPt
        (fun x hx => hT x (by rw [preorder]; exact List.mem_cons_of_mem _ hx)) h
theorem findTransformChilds_lastRow : ∀ (cs : List (SceneGraphNode K)) (name : String)
    (Q M : Matrix4f K),
    Q 3 = ![0, 0, 0, 1] → (∀ x ∈ preorderChilds cs, x.transform 3 = ![0, 0, 0, 1]) →
    findTransformChilds cs name Q = some M → M 3 = ![0, 0, 0, 1]
  | [], _, _, _, _, _, h => by simp [findTransformChilds] at h
  | c :: cs, name, Q, M, hQ, hT, h => by
    rw [findTransformChilds] at h
    cases hc : findTransform c name Q with
    | some r =>
      rw [hc] at h
      simp only [Option.some.injEq] at h
      rw [← h]
      exact findTransform_lastRow c name Q r hQ
        (fun x hx => hT x (by rw [preorderChilds]; exact List.mem_append_left _ hx)) hc
    | none =>
      rw [hc] at h
      exact findTransformChilds_lastRow cs name Q M hQ
        (fun x hx => hT x (by rw [preorderChilds]; exact List.mem_append_right _ hx)) h
end

/-- C22: `identity`, `uniformScale`, `scale`, `rotationX`, `rotationY`, `rotationZ`,
`rotationA`, `translate`, `shearing` and `lookAt` all have last row `(0, 0, 0, 1)`; and if `P`
and every node transform of a tree have last row `(0, 0, 0, 1)`, then every matrix returned by
`findTransform root name P` has last row `(0, 0, 0, 1)` and every vector returned by
`findPosition root name P` has fourth component `1`. -/
theorem affine_matrices_preserved :
    ((Transformations.identity : Matrix4f K) 3 = ![0, 0, 0, 1] ∧
     (∀ s : K, Transformations.uniformScale s 3 = ![0, 0, 0, 1]) ∧
     (∀ sx sy sz : K, Transformations.scale sx sy sz 3 = ![0, 0, 0, 1]) ∧
     (∀ (sin cos : K → K) (theta : K), Transformations.rotationX sin cos theta 3 = ![0, 0, 0, 1]) ∧
     (∀ (sin cos : K → K) (theta : K), Transformations.rotationY sin cos theta 3 = ![0, 0, 0, 1]) ∧
     (∀ (sin cos : K → K) (theta : K), Transformations.rotationZ sin cos theta 3 = ![0, 0, 0, 1]) ∧
     (∀ (sin cos sqrt : K → K) (theta : K) (axis : Vector3f K),
        Transformations.rotationA sin cos sqrt theta axis 3 = ![0, 0, 0, 1]) ∧
     (∀ tx ty tz : K, Transformations.translate tx ty tz 3 = ![0, 0, 0, 1]) ∧
     (∀ xy yx xz zx yz zy : K, Transformations.shearing xy yx xz zx yz zy 3 = ![0, 0, 0, 1]) ∧
     (∀ (sqrt : K → K) (eye target up : Vector3f K),
        Transformations.lookAt sqrt eye target up 3 = ![0, 0, 0, 1])) ∧
    (∀ (root : SceneGraphNode K) (name : String) (P : Matrix4f K),
      P 3 = ![0, 0, 0, 1] → (∀ x ∈ preorder root, x.transform 3 = ![0, 0, 0, 1]) →
      (∀ M, findTransform root name P = some M → M 3 = ![0, 0, 0, 1]) ∧
      (∀ v, findPosition root name P = some v → v 3 = 1)) := by
  refine ⟨⟨?_, ?_, ?_, ?_, ?_, ?_, ?_, ?_, ?_, ?_⟩, ?_⟩
  · exact one_lastRow
  · intro s
    rfl
  · intro sx sy sz
    rfl
  · intro sin cos theta
    rfl
  · intro sin cos theta
    rfl
  · intro sin cos theta
    rfl
  · intro sin cos sqrt theta axis
    rfl
  · intro tx ty tz
    rfl
  · intro xy yx xz zx yz zy
    rfl
  · intro sqrt eye target up
    rfl
  · intro root name P hP hT
    constructor
    · intro M hM
      exact findTransform_lastRow root name P M hP hT hM
    · intro v hv
      unfold findPosition at hv
      cases hM : findTransform root name P with
      | none => simp [hM] at hv
      | some M =>
        rw [hM] at hv
        simp only [Option.some.injEq] at hv
        have hrow := findTransform_lastRow root name P M hP hT hM
        rw [← hv]
        simp [Matrix.mulVec, Matrix.dotProduct, Fin.sum_univ_four, hrow]

/-- The sample car has affine node transforms: the transform found for its wheel has last row
`(0, 0, 0, 1)` and the position found has fourth component `1`. -/
theorem affine_matrices_preserved_witness :
    (∃ M, findTransform sampleUnicycle "wheel" 1 = some M ∧ M 3 = ![0, 0, 0, 1]) ∧
    (∃ v, findPosition sampleUnicycle "wheel" 1 = some v ∧ v 3 = 1) := by
  have h := (affine_matrices_preserved (K := ℚ)).2 sampleUnicycle "wheel" 1
    one_lastRow
    (by
      intro x hx
      simp only [sampleUnicycle, sampleChasis, sampleFrontWheel, sampleWheelRotation,
        sampleWheel, preorder, preorderChilds, List.mem_cons, List.cons_append,
        List.nil_append, List.append_nil, List.mem_singleton, List.not_mem_nil, or_false] at hx
      rcases hx with rfl | rfl | rfl | rfl | rfl <;>
        first
          | rfl
          | exact one_lastRow)
  exact ⟨⟨_, rfl, h.1 _ rfl⟩, ⟨_, rfl, h.2 _ rfl⟩⟩

end Affine

/-! ## The camera matrix -/

section Camera

variable {K : Type} [Field K]

theorem dot_normalize (sqrt : K → K) (v w : Vector3f K) :
    Transformations.dot (Transformations.normalize sqrt v) w
      = Transformations.dot v w / sqrt (Transformations.squaredNorm v) := by
  simp only [Transformations.dot, Transformations.normalize]
  ring

theorem dot_div_left (v w : Vector3f K) (c : K) :
    Transformations.dot (fun i => v i / c) w = Transformations.dot v w / c := by
  simp only [Transformations.dot]
  ring

theorem cross_normalize_left (sqrt : K → K) (v w : Vector3f K) :
    Transformations.cross (Transformations.normalize sqrt v) w
      = fun i => Transformations.cross v w i / sqrt (Transformations.squaredNorm v) := by
  funext i
  fin_cases i <;> simp [Transformations.cross, Transformations.normalize] <;> ring

theorem cross_normalize_right (sqrt : K → K) (v w : Vector3f K) :
    Transformations.cross v (Transformations.normalize sqrt w)
      = fun i => Transformations.cross v w i / sqrt (Transformations.squaredNorm w) := by
  funext i
  fin_cases i <;> simp [Transformations.cross, Transformations.normalize] <;> ring

theorem dot_cross_left (a b : Vector3f K) :
    Transformations.dot (Transformations.cross a b) a = 0 := by
  simp [Transformations.dot, Transformations.cross]
  ring

theorem dot_cross_right (a b : Vector3f K) :
    Transformations.dot (Transformations.cross a b) b = 0 := by
  simp [Transformations.dot, Transformations.cross]
  ring

theorem squaredNorm_cross (a b : Vector3f K) :
    Transformations.squaredNorm (Transformations.cross a b)
      = Transformations.squaredNorm a * Transformations.squaredNorm b
        - Transformations.dot a b * Transformations.dot a b := by
  simp [Transformations.squaredNorm, Transformations.dot, Transformations.cross]
  ring

theorem lookAt_mulVec (sqrt : K → K) (eye target up p : Vector3f K) :
    Matrix.mulVec (Transformations.lookAt sqrt eye target up) ![p 0, p 1, p 2, 1]
      = ![Transformations.dot
            (Transformations.normalize sqrt
              (Transformations.cross (Transformations.normalize sqrt (target - eye)) up))
            (p - eye),
          Transformations.dot
            (Transformations.normalize sqrt
              (Transformations.cross
                (Transformations.normalize sqrt
                  (Transformations.cross (Transformations.normalize sqrt (target - eye)) up))
                (Transformations.normalize sqrt (target - eye))))
            (p - eye),
          -Transformations.dot (Transformations.normalize sqrt (target - eye)) (p - eye),
          1] := by
  funext i
  fin_cases i <;>
    simp [Transformations.lookAt, Transformations.dot, Matrix.mulVec, Matrix.dotProduct,
      Fin.sum_univ_four] <;>
    ring

theorem squaredNorm_pos (v : Vector3f ℝ) (hv : v ≠ 0) : 0 < Transformations.squaredNorm v := by
  unfold Transformations.squaredNorm
  by_contra h
  push_neg at h
  have h0 := mul_self_nonneg (v 0)
  have h1 := mul_self_nonneg (v 1)
  have h2 := mul_self_nonneg (v 2)
  have e0 : v 0 = 0 := mul_self_eq_zero.mp (by linarith)
  have e1 : v 1 = 0 := mul_self_eq_zero.mp (by linarith)
  have e2 : v 2 = 0 := mul_self_eq_zero.mp (by linarith)
  apply hv
  funext i
  fin_cases i
  · exact e0
  · exact e1
  · exact e2

theorem squaredNorm_normalize (v : Vector3f ℝ) (hv : v ≠ 0) :
    Transformations.squaredNorm (Transformations.normalize Real.sqrt v) = 1 := by
  have hpos := squaredNorm_pos v hv
  have hs : Real.sqrt (Transformations.squaredNorm v) ≠ 0 := (Real.sqrt_pos.mpr hpos).ne'
  have hss := Real.mul_self_sqrt hpos.le
  have h : Transformations.squaredNorm (Transformations.normalize Real.sqrt v)
      = Transformations.squaredNorm v
        / (Real.sqrt (Transformations.squaredNorm v)
            * Real.sqrt (Transformations.squaredNorm v)) := by
    simp only [Transformations.squaredNorm, Transformations.normalize]
    field_simp
  rw [h, hss]
  exact div_self hpos.ne'

/-- C24: for `eye ≠ target` and `up` not parallel to `target - eye`, none of the three
normalisations in `lookAt eye target up` divides by zero, the matrix maps the point `(eye, 1)`
to `(0, 0, 0, 1)` and the point `(target, 1)` to `(0, 0, -‖target - eye‖, 1)`, over the real
numbers. -/
theorem lookAt_maps_eye_and_target (eye target up : Vector3f ℝ)
    (h1 : eye ≠ target) (h2 : Transformations.cross (target - eye) up ≠ 0) :
    (Real.sqrt (Transformations.squaredNorm (target - eye)) ≠ 0 ∧
     Real.sqrt (Transformations.squaredNorm
        (Transformations.cross (Transformations.normalize Real.sqrt (target - eye)) up)) ≠ 0 ∧
     Real.sqrt (Transformations.squaredNorm
        (Transformations.cross
          (Transformations.normalize Real.sqrt
            (Transformations.cross (Transformations.normalize Real.sqrt (target - eye)) up))
          (Transformations.normalize Real.sqrt (target - eye)))) ≠ 0) ∧
    Matrix.mulVec (Transformations.lookAt Real.sqrt eye target up) ![eye 0, eye 1, eye 2, 1]
      = ![0, 0, 0, 1] ∧
    Matrix.mulVec (Transformations.lookAt Real.sqrt eye target up)
        ![target 0, target 1, target 2, 1]
      = ![0, 0, -Real.sqrt (Transformations.squaredNorm (target - eye)), 1] := by
  have hd : target - eye ≠ 0 := sub_ne_zero.mpr (Ne.symm h1)
  have hpos := squaredNorm_pos _ hd
  have hs : Real.sqrt (Transformations.squaredNorm (target - eye)) ≠ 0 :=
    (Real.sqrt_pos.mpr hpos).ne'
  have hss := Real.mul_self_sqrt hpos.le
  have hc : Transformations.cross (Transformations.normalize Real.sqrt (target - eye)) up ≠ 0 := by
    rw [cross_normalize_left]
    intro h0
    apply h2
    funext i
    have hi := congrFun h0 i
    simp only [Pi.zero_apply, div_eq_zero_iff, hs, or_false] at hi
    exact hi
  have hposc := squaredNorm_pos _ hc
  have hsc := (Real.sqrt_pos.mpr hposc).ne'
  refine ⟨⟨hs, hsc, ?_⟩, ?_, ?_⟩
  · rw [squaredNorm_cross, squaredNorm_normalize _ hc, squaredNorm_normalize _ hd,
      dot_normalize, dot_cross_left]
    norm_num
  · rw [lookAt_mulVec]
    simp [Transformations.dot]
  · rw [lookAt_mulVec, dot_normalize, dot_normalize, dot_normalize, cross_normalize_left,
      dot_div_left, dot_cross_left, cross_normalize_right, dot_div_left, dot_cross_right]
    have hself : Transformations.dot (target - eye) (target - eye)
        = Transformations.squaredNorm (target - eye) := rfl
    have hdiv : Transformations.squaredNorm (target - eye)
          / Real.sqrt (Transformations.squaredNorm (target - eye))
        = Real.sqrt (Transformations.squaredNorm (target - eye)) := by
      rw [div_eq_iff hs]
      exact hss.symm
    rw [hself, hdiv]
    simp

/-- The camera at `(0, 8, 4)` looking at the origin with up direction `(0, 0, 1)`. -/
theorem lookAt_maps_eye_and_target_witness :
    Matrix.mulVec (Transformations.lookAt Real.sqrt sampleEye sampleTarget sampleUp)
        ![sampleEye 0, sampleEye 1, sampleEye 2, 1]
      = ![0, 0, 0, 1] ∧
    Matrix.mulVec (Transformations.lookAt Real.sqrt sampleEye sampleTarget sampleUp)
        ![sampleTarget 0, sampleTarget 1, sampleTarget 2, 1]
      = ![0, 0, -Real.sqrt (Transformations.squaredNorm (sampleTarget - sampleEye)), 1] :=
  (lookAt_maps_eye_and_target sampleEye sampleTarget sampleUp
    (by
      intro h
      have h1 := congrFun h 1
      simp [sampleEye, sampleTarget] at h1)
    (by
      intro h
      have h0 := congrFun h 0
      simp [Transformations.cross, sampleEye, sampleTarget, sampleUp] at h0)).2

end Camera

/-! ## Well-formed index data -/

section WellFormedShapes

theorem wellFormed_of_count {K : Type} (s : Shape K) (n : Nat) (hpos : 0 < s.stride)
    (hlen : s.vertices.length = s.stride * n)
    (hidx : s.indices.all (fun i => decide (i < n)) = true) : s.WellFormed := by
  rw [List.all_eq_true] at hidx
  refine ⟨⟨n, hlen⟩, ?_⟩
  intro i hi
  rw [hlen, Nat.mul_div_cancel_left n hpos]
  exact of_decide_eq_true (hidx i hi)

variable {K : Type} [Field K]

theorem createColorCircleLoop_stride (cos sin : K → K) (dtheta r g b : K) (bound : Nat) :
    ∀ (fuel i : Nat) (shape s : Shape K),
      createColorCircleLoop cos sin dtheta r g b bound fuel i shape = some s →
      s.stride = shape.stride
  | 0, _, _, _, h => by simp [createColorCircleLoop] at h
  | fuel + 1, i, shape, s, h => by
    rw [createColorCircleLoop] at h
    by_cases hi : i ≤ bound
    · rw [if_pos hi] at h
      have h' := createColorCircleLoop_stride cos sin dtheta r g b bound fuel _ _ s h
      exact h'
    · rw [if_neg hi] at h
      simp only [Option.some.injEq] at h
      rw [h]

theorem createColorCircleLoop_diverges (cos sin : K → K) (dtheta r g b : K) (bound : Nat)
    (hb : bound = 2 ^ 32 - 1) :
    ∀ (fuel i : Nat) (shape : Shape K), i < 2 ^ 32 →
      createColorCircleLoop cos sin dtheta r g b bound fuel i shape = none
  | 0, _, _, _ => by rw [createColorCircleLoop]
  | fuel + 1, i, shape, hi => by
    rw [createColorCircleLoop, if_pos (by omega)]
    exact createColorCircleLoop_diverges cos sin dtheta r g b bound hb fuel _ _
      (Nat.mod_lt _ (by norm_num))

theorem createGridXYLoopX_spec (Nx : Nat) (xmin xmax z r g b : K) (hN : Nx + 1 < 2 ^ 32) :
    ∀ (fuel i : Nat) (shape : Shape K), i ≤ Nx + 1 → Nx + 1 - i < fuel →
      ∃ s, createGridXYLoopX Nx xmin xmax z r g b fuel i shape = some s ∧
        s.stride = shape.stride ∧
        s.vertices.length = shape.vertices.length + 12 * (Nx + 1 - i) ∧
        s.indices.length = shape.indices.length + 2 * (Nx + 1 - i) ∧
        ∀ k ∈ s.indices, k ∈ shape.indices ∨ k < 2 * (Nx + 1)
  | 0, i, shape, _, hf => by omega
  | fuel + 1, i, shape, h2, hf => by
    rw [createGridXYLoopX]
    by_cases hi : i ≤ Nx
    · rw [if_pos hi]
      have hi1 : (i + 1) % 2 ^ 32 = i + 1 := Nat.mod_eq_of_lt (by omega)
      rw [hi1]
      obtain ⟨s, hs, hst, hv, hl, hidx⟩ := createGridXYLoopX_spec Nx xmin xmax z r g b hN
        fuel (i + 1) _ (by omega) (by omega)
      refine ⟨s, hs, hst, ?_, ?_, ?_⟩
      · rw [hv]
        simp only [List.length_append, List.length_cons, List.length_nil]
        omega
      · rw [hl]
        simp only [List.length_append, List.length_cons, List.length_nil]
        omega
      · intro k hk
        rcases hidx k hk with h | h
        · simp only [List.mem_append, List.mem_cons, List.mem_singleton, List.not_mem_nil,
            or_false] at h
          rcases h with h | h | h
          · exact Or.inl h
          · right
            omega
          · right
            omega
        · exact Or.inr h
    · rw [if_neg hi]
      have hz : Nx + 1 - i = 0 := by omega
      exact ⟨shape, rfl, rfl, by simp [hz], by simp [hz], fun k hk => Or.inl hk⟩

theorem createGridXYLoopY_spec (Ny Sx : Nat) (ymin ymax z r g b : K) (hN : Ny + 1 < 2 ^ 32) :
    ∀ (fuel j : Nat) (shape : Shape K), j ≤ Ny + 1 → Ny + 1 - j < fuel →
      ∃ s, createGridXYLoopY Ny Sx ymin ymax z r g b fuel j shape = some s ∧
        s.stride = shape.stride ∧
        s.vertices.length = shape.vertices.length + 12 * (Ny + 1 - j) ∧
        ∀ k ∈ s.indices, k ∈ shape.indices ∨ k < Sx + 2 * (Ny + 1)
  | 0, j, shape, _, hf => by omega
  | fuel + 1, j, shape, h2, hf => by
    rw [createGridXYLoopY]
    by_cases hj : j ≤ Ny
    · rw [if_pos hj]
      have hj1 : (j + 1) % 2 ^ 32 = j + 1 := Nat.mod_eq_of_lt (by omega)
      rw [hj1]
      obtain ⟨s, hs, hst, hv, hidx⟩ := createGridXYLoopY_spec Ny Sx ymin ymax z r g b hN
        fuel (j + 1) _ (by omega) (by omega)
      refine ⟨s, hs, hst, ?_, ?_⟩
      · rw [hv]
        simp only [List.length_append, List.length_cons, List.length_nil]
        omega
      · intro k hk
        rcases hidx k hk with h | h
        · simp only [List.mem_append, List.mem_cons, List.mem_singleton, List.not_mem_nil,
            or_false] at h
          rcases h with h | h | h
          · exact Or.inl h
          · right
            omega
          · right
            omega
        · exact Or.inr h
    · rw [if_neg hj]
      have hz : Ny + 1 - j = 0 := by omega
      exact ⟨shape, rfl, rfl, by simp [hz], fun k hk => Or.inl hk⟩

theorem createColorCircle_wellFormed (cos sin : K → K) (steps : Nat) (r g b : K)
    (hsteps : steps + 2 < 2 ^ 32) :
    ∃ s, createColorCircle cos sin steps r g b = some s ∧ s.WellFormed := by
  have hbound : (steps + 1) % 2 ^ 32 = steps + 1 := Nat.mod_eq_of_lt (by omega)
  unfold createColorCircle
  rw [hbound]
  obtain ⟨s, hs, hv, hidx⟩ := createColorCircleLoop_spec cos sin
    (2 * 3.1415 / (steps : K)) r g b (steps + 1) (by omega) (2 ^ 32) 1
    { stride := 6, texture := "",
      vertices := [0.0, 0.0, 0.0, r, g, b] ++ [0.5, 0.0, 0.0, r, g, b], indices := [] }
    (le_refl 1) (by omega) (by omega)
  have hst := createColorCircleLoop_stride cos sin _ r g b _ _ _ _ s hs
  refine ⟨s, hs, ?_, ?_⟩
  · rw [hst, hv]
    simp only [List.length_append, List.length_cons, List.length_nil]
    exact ⟨2 + (steps + 1 + 1 - 1), by omega⟩
  · intro k hk
    rw [hst, hv]
    rw [hidx] at hk
    simp only [List.nil_append, List.mem_flatMap, List.mem_range'_1, List.mem_cons,
      List.mem_singleton, List.not_mem_nil, or_false] at hk
    obtain ⟨j, hj, hkj⟩ := hk
    simp only [List.length_append, List.length_cons, List.length_nil]
    omega

theorem createGridXY_wellFormed (Nx Ny : Nat) (z r g b : K)
    (hNx : Nx + 1 < 2 ^ 32) (hNy : Ny + 1 < 2 ^ 32) :
    ∃ s, createGridXY Nx Ny z r g b = some s ∧ s.WellFormed := by
  unfold createGridXY
  obtain ⟨s1, hs1, hst1, hv1, hl1, hidx1⟩ := createGridXYLoopX_spec Nx (0 : K) (Ny : K) z r g b
    hNx (2 ^ 32) 0 { stride := 6, texture := "", vertices := [], indices := [] }
    (by omega) (by omega)
  simp only [hs1]
  obtain ⟨s, hs, hst, hv, hidx⟩ := createGridXYLoopY_spec Ny s1.indices.length (0 : K) (Nx : K)
    z r g b hNy (2 ^ 32) 0 s1 (by omega) (by omega)
  refine ⟨s, hs, ?_, ?_⟩
  · rw [hst, hst1, hv, hv1]
    simp only [List.length_nil]
    exact ⟨2 * (Nx + 1) + 2 * (Ny + 1), by omega⟩
  · intro k hk
    rw [hst, hst1, hv, hv1]
    simp only [List.length_nil] at hl1 ⊢
    rcases hidx k hk with h | h
    · rcases hidx1 k h with h' | h'
      · simp at h'
      · omega
    · omega

theorem createRainbowTriangle_wellFormed : (createRainbowTriangle : Shape K).WellFormed :=
  wellFormed_of_count _ 3 (show 0 < 6 by norm_num) (show _ = 18 from rfl) rfl

theorem createRainbowQuad_wellFormed : (createRainbowQuad : Shape K).WellFormed :=
  wellFormed_of_count _ 4 (show 0 < 6 by norm_num) (show _ = 24 from rfl) rfl

theorem createColorQuad_wellFormed (r g b : K) : (createColorQuad r g b).WellFormed :=
  wellFormed_of_count _ 4 (show 0 < 6 by norm_num) (show _ = 24 from rfl) rfl

theorem createTextureQuad_wellFormed (nx ny : K) : (createTextureQuad nx ny).WellFormed :=
  wellFormed_of_count _ 4 (show 0 < 5 by norm_num) (show _ = 20 from rfl) rfl

theorem createAxis_wellFormed (length : K) : (createAxis length).WellFormed :=
  wellFormed_of_count _ 6 (show 0 < 6 by norm_num) (show _ = 36 from rfl) rfl

theorem createRainbowCube_wellFormed : (createRainbowCube : Shape K).WellFormed :=
  wellFormed_of_count _ 8 (show 0 < 6 by norm_num) (show _ = 48 from rfl) rfl

theorem createColorCube_wellFormed (r g b : K) : (createColorCube r g b).WellFormed :=
  wellFormed_of_count _ 8 (show 0 < 6 by norm_num) (show _ = 48 from rfl) rfl

theorem createRainbowNormalsCube_wellFormed :
    (createRainbowNormalsCube : Shape K).WellFormed :=
  wellFormed_of_count _ 8 (show 0 < 9 by norm_num) (show _ = 72 from rfl) rfl

theorem createColorNormalsCube_wellFormed (r g b : K) :
    (createColorNormalsCube r g b).WellFormed :=
  wellFormed_of_count _ 24 (show 0 < 9 by norm_num) (show _ = 216 from rfl) rfl

/-- C23, as amended: `createRainbowTriangle`, `createRainbowQuad`, `createColorQuad`,
`createTextureQuad`, `createAxis`, `createRainbowCube`, `createColorCube`,
`createRainbowNormalsCube` and `createColorNormalsCube` return well-formed index data (the
number of coordinates is a multiple of the stride and every index is smaller than the number of
vertices); so does `createColorCircle` for every `steps` with `steps + 2 < 2^32`, and
`createGridXY` for all `Nx`, `Ny` with `Nx + 1 < 2^32` and `Ny + 1 < 2^32`. -/
theorem generators_wellFormed :
    (createRainbowTriangle : Shape K).WellFormed ∧
    (createRainbowQuad : Shape K).WellFormed ∧
    (∀ r g b : K, (createColorQuad r g b).WellFormed) ∧
    (∀ nx ny : K, (createTextureQuad nx ny).WellFormed) ∧
    (∀ length : K, (createAxis length).WellFormed) ∧
    (createRainbowCube : Shape K).WellFormed ∧
    (∀ r g b : K, (createColorCube r g b).WellFormed) ∧
    (createRainbowNormalsCube : Shape K).WellFormed ∧
    (∀ r g b : K, (createColorNormalsCube r g b).WellFormed) ∧
    (∀ (cos sin : K → K) (steps : Nat) (r g b : K), steps + 2 < 2 ^ 32 →
      ∃ s, createColorCircle cos sin steps r g b = some s ∧ s.WellFormed) ∧
    (∀ (Nx Ny : Nat) (z r g b : K), Nx + 1 < 2 ^ 32 → Ny + 1 < 2 ^ 32 →
      ∃ s, createGridXY Nx Ny z r g b = some s ∧ s.WellFormed) :=
  ⟨createRainbowTriangle_wellFormed, createRainbowQuad_wellFormed, createColorQuad_wellFormed,
   createTextureQuad_wellFormed, createAxis_wellFormed, createRainbowCube_wellFormed,
   createColorCube_wellFormed, createRainbowNormalsCube_wellFormed,
   createColorNormalsCube_wellFormed,
   fun cos sin steps r g b h => createColorCircle_wellFormed cos sin steps r g b h,
   fun Nx Ny z r g b h1 h2 => createGridXY_wellFormed Nx Ny z r g b h1 h2⟩

/-- The circle of `ex_joystick.cpp` and a grid of 10 by 10 cells are well formed. -/
theorem generators_wellFormed_witness :
    (∃ s, createColorCircle (fun _ => (0 : ℚ)) (fun _ => 0) 20 1 0 0 = some s ∧ s.WellFormed) ∧
    (∃ s, createGridXY 10 10 (0 : ℚ) 0 0 0 = some s ∧ s.WellFormed) :=
  ⟨(generators_wellFormed (K := ℚ)).2.2.2.2.2.2.2.2.2.1 _ _ 20 1 0 0 (by norm_num),
   (generators_wellFormed (K := ℚ)).2.2.2.2.2.2.2.2.2.2 10 10 0 0 0 0 (by norm_num)
     (by norm_num)⟩

/-- C23, as stated, fails for `steps = 2^32 - 2`: `steps + 1` does not overflow, yet the loop
bound `steps + 1` is the largest `unsigned int`, the loop of `createColorCircle` never ends and
no shape is returned. -/
theorem createColorCircle_no_return_counterexample :
    4294967294 + 1 < 2 ^ 32 ∧
    createColorCircle (fun _ => (0 : ℚ)) (fun _ => 0) 4294967294 1 0 0 = none :=
  ⟨by norm_num,
   createColorCircleLoop_diverges _ _ _ _ _ _ _ (by norm_num) _ _ _ (by norm_num)⟩

end WellFormedShapes

end Grafica
